import Mathlib

/-!
Verification development for the model-interpretation-dashboard evaluation core.

Shallow embedding of `src/backend/evaluation/metrics.py`,
`src/backend/evaluation/benchmark_runner.py` and
`src/backend/evaluation/leaderboard.py`.

Modelling conventions:
* Python floats are embedded as `ℚ` (all arithmetic in the source is exact
  on the rationals; no rounding-sensitive operations occur).
* Python dicts are embedded as association lists `List (String × α)` with
  Python's insertion-order semantics: `dictInsert` re-assigns an existing
  key in place (keeping its position) and appends a fresh key at the end,
  exactly like CPython dict assignment; `pyGet` is `dict.get`.
* `sorted(xs, key=k, reverse=True)` is embedded as `pyDescSort`: both are
  the unique stable descending sort (descending by key, ties in original
  order), realised here through `List.insertionSort` with the relation
  `fun a b => k b ≤ k a`.
* Python `str.split()` (no argument) is whitespace splitting discarding
  empty tokens (`pyWords`); `str.split('.')` is `String.splitOn "."`.
-/

/-- Membership-style substring test on character lists:
`startsList p l` is true when `p` is an initial segment of `l`. -/
def startsList : List Char → List Char → Bool
  | [], _ => true
  | _ :: _, [] => false
  | a :: as, b :: bs => a == b && startsList as bs

/-- `subSeq p l` is true when `p` occurs contiguously inside `l`
(Python's `p in l` for strings). -/
def subSeq (p : List Char) : List Char → Bool
  | [] => startsList p []
  | c :: cs => startsList p (c :: cs) || subSeq p cs

/-- Python's `pat in s` substring containment. -/
def containsSub (s pat : String) : Bool :=
  subSeq pat.data s.data

/-- Helper for `pyWords`: split a character list on whitespace runs,
accumulating the current (reversed) word. -/
def wordsAux : List Char → List Char → List (List Char)
  | [], cur => if cur = [] then [] else [cur.reverse]
  | c :: cs, cur =>
    if c.isWhitespace then
      if cur = [] then wordsAux cs [] else cur.reverse :: wordsAux cs []
    else wordsAux cs (c :: cur)

/-- Python's `s.split()`: split on whitespace runs, dropping empty tokens. -/
def pyWords (s : String) : List String :=
  (wordsAux s.data []).map String.mk

/-- Helper for `pySplitOnChar`. -/
def splitCharAux (sep : Char) : List Char → List Char → List (List Char)
  | [], cur => [cur.reverse]
  | c :: cs, cur =>
    if c = sep then cur.reverse :: splitCharAux sep cs [] else splitCharAux sep cs (c :: cur)

/-- Python's `s.split(sep)` for a one-character separator
(used by the source only as `response.split('.')`). -/
def pySplitOnChar (s : String) (sep : Char) : List String :=
  (splitCharAux sep s.data []).map String.mk

/-- Python's `s.strip()`: remove whitespace from both ends. -/
def pyStrip (s : String) : String :=
  String.mk (((s.data.dropWhile Char.isWhitespace).reverse.dropWhile Char.isWhitespace).reverse)

/-- Python's `s.endswith(c)` for a one-character suffix. -/
def endsWithChar (s : String) (c : Char) : Bool :=
  match s.data.getLast? with
  | none => false
  | some d => d = c

/-- Python's `s.lower()` (ASCII lowering, as `Char.toLower`). -/
def pyLower (s : String) : String :=
  String.mk (s.data.map Char.toLower)

/-- `dict.get k` on an association list. -/
def pyGet (k : String) : List (String × α) → Option α
  | [] => none
  | (k', v) :: rest => if k' = k then some v else pyGet k rest

/-- CPython `d[k] = v`: re-assign in place if the key exists
(keeping its position), else append at the end. -/
def dictInsert (k : String) (v : α) : List (String × α) → List (String × α)
  | [] => [(k, v)]
  | (k', v') :: rest => if k' = k then (k, v) :: rest else (k', v') :: dictInsert k v rest

/-- Python `min` over a nonempty float list (0 on the empty list,
which the source never reaches). -/
def pyMin : List ℚ → ℚ
  | [] => 0
  | x :: xs => xs.foldl min x

/-- Python `max` over a nonempty float list (0 on the empty list,
which the source never reaches). -/
def pyMax : List ℚ → ℚ
  | [] => 0
  | x :: xs => xs.foldl max x

/-- Python `sum`. -/
def pySum (l : List ℚ) : ℚ := l.foldl (· + ·) 0

/-- `sorted(l, key, reverse=True)`: the stable descending sort by `key`. -/
def pyDescSort (key : α → ℚ) (l : List α) : List α :=
  @List.insertionSort α (fun a b => key b ≤ key a)
    (fun a b => inferInstanceAs (Decidable (key b ≤ key a))) l

/-! ## MetricsCalculator (`src/backend/evaluation/metrics.py`) -/

/-- `MetricsCalculator.calculate_latency_score`. -/
def calculate_latency_score (latency : ℚ) : ℚ :=
  if latency ≤ 1 then 100
  else if latency ≥ 10 then 0
  else max 0 (100 * (10 - latency) / 9)

/-- `MetricsCalculator.calculate_cost_score` (default `max_cost = 0.1`). -/
def calculate_cost_score (cost : ℚ) (max_cost : ℚ := 1/10) : ℚ :=
  if cost ≤ 0 then 100
  else (1 - min (cost / max_cost) 1) * 100

/-- The set of lowercase words of a text, as used by
`_calculate_text_similarity` (`set(text.lower().split())`). -/
def wordSet (s : String) : Finset String :=
  (pyWords (pyLower s)).toFinset

/-- `MetricsCalculator._calculate_text_similarity`. -/
def calculate_text_similarity (text1 text2 : String) : ℚ :=
  let words1 := wordSet text1
  let words2 := wordSet text2
  if words1 = ∅ ∧ words2 = ∅ then 1
  else if words1 = ∅ ∨ words2 = ∅ then 0
  else ((words1 ∩ words2).card : ℚ) / ((words1 ∪ words2).card : ℚ)

/-- `MetricsCalculator.calculate_quality_score`.  The `reference` argument
is `Option String`: `none` models Python `None` (the default), and
`some r` a supplied reference; Python's `if reference:` is falsy both for
`None` and for the empty string. -/
def calculate_quality_score (response : String) (reference : Option String := none) : ℚ :=
  if response = "" then 0
  else
    let score0 : ℚ := 50
    let length := (pyWords response).length
    let score1 :=
      if 10 ≤ length ∧ length ≤ 500 then score0 + 20
      else if (5 ≤ length ∧ length < 10) ∨ (500 < length ∧ length ≤ 1000) then score0 + 10
      else score0
    let sentences := pySplitOnChar response '.'
    let score2 := if 1 < sentences.length then score1 + 10 else score1
    let t := pyStrip response
    let score3 :=
      if endsWithChar t '.' ∨ endsWithChar t '!' ∨ endsWithChar t '?' then score2 + 10 else score2
    let score4 :=
      if containsSub response "I apologize" ∨ containsSub response "I cannot" then
        score3 - 10
      else score3
    let score5 :=
      match reference with
      | some r => if r = "" then score4 else (score4 + calculate_text_similarity response r * 100) / 2
      | none => score4
    min 100 (max 0 score5)

/-- `MetricsCalculator.calculate_context_utilization_score`. -/
def calculate_context_utilization_score (prompt_length : ℕ) (max_context : ℤ) : ℚ :=
  if max_context ≤ 0 then 50
  else
    let utilization : ℚ := min ((prompt_length : ℚ) / (max_context : ℚ)) 1
    if 1/5 ≤ utilization ∧ utilization ≤ 4/5 then 100
    else if utilization < 1/5 then utilization * 500
    else max 0 (100 - (utilization - 4/5) * 500)

/-- The default weight table of `MetricsCalculator.aggregate_scores`. -/
def default_weights : List (String × ℚ) :=
  [("latency", 3/10), ("cost", 1/5), ("quality", 2/5), ("context_utilization", 1/10)]

/-- `MetricsCalculator.aggregate_scores`.  `weights = none` models the
Python default `weights=None` (which selects `default_weights`); an absent
metric gets weight `0.1`. -/
def aggregate_scores (scores : List (String × ℚ)) (weights : Option (List (String × ℚ)) := none) : ℚ :=
  if scores = [] then 0
  else
    let w := weights.getD default_weights
    let totals := scores.foldl
      (fun acc p =>
        let weight := (pyGet p.1 w).getD (1/10)
        (acc.1 + p.2 * weight, acc.2 + weight))
      ((0 : ℚ), (0 : ℚ))
    if 0 < totals.2 then totals.1 / totals.2 else 0

/-! ## Data model of the runner (`src/backend/evaluation/benchmark_runner.py`)

`uuid.uuid4()` and `time.time()` (run id / timestamp) are environment
inputs that no claim touches; the `BenchmarkRun` embedding carries the
deterministic fields.  The in-memory `results_store` is likewise outside
the claims. -/

/-- The dictionary a Connector's `generate_response` returns.  `response`
is `Option String`: `none` models both a missing key and Python `None`
(both are falsy for `calculate_quality_score` and neither is read
anywhere else in the core). -/
structure ResponseData where
  response : Option String := none
  latency : ℚ := 0
  tokens_used : ℕ := 0
  success : Bool := false
  error : Option String := none

/-- The dictionary `get_model_info` returns (fields the core reads). -/
structure ModelInfo where
  name : String := ""
  provider : String := ""
  max_context_length : ℤ := 4096
  cost_per_1k_tokens : ℚ := 0
  modalities : List String := ["text"]

/-- A resolved model connector: `generate_response` plus `get_model_info`. -/
structure Connector where
  generate : String → ResponseData
  info : ModelInfo

/-- One per-metric entry of `calculated_metrics` in
`_evaluate_single_prompt`; optional fields model the keys that only some
metrics carry (`raw_value`, `tokens_used`, `prompt_length`, `max_context`). -/
structure MetricData where
  score : ℚ
  raw_value : Option ℚ := none
  tokens_used : Option ℕ := none
  prompt_length : Option ℕ := none
  max_context : Option ℤ := none
deriving DecidableEq

/-- The per-(model, prompt) result dict of `_evaluate_single_prompt`. -/
structure PromptResult where
  prompt : String
  response : Option String
  success : Bool
  error : Option String
  metrics : List (String × MetricData)
  prompt_index : ℕ := 0
deriving DecidableEq

/-- One aggregated-metric entry of `_aggregate_prompt_results`; the raw
statistics are present exactly when some succeeded evaluation carried a
`raw_value`. -/
structure AggEntry where
  average_score : ℚ
  min_score : ℚ
  max_score : ℚ
  count : ℕ
  average_raw : Option ℚ := none
  min_raw : Option ℚ := none
  max_raw : Option ℚ := none
deriving DecidableEq

/-- The `aggregated` dict of `_aggregate_prompt_results`.  The source
stores `overall_score` as one more key of the same dict (holding a float
where the other keys hold dicts); the typed embedding keeps it as a
separate optional field, present iff `entries` is nonempty. -/
structure AggregatedMetrics where
  entries : List (String × AggEntry)
  overall_score : Option ℚ
deriving DecidableEq

/-- The per-model dict built by `_run_model_benchmark`. -/
structure ModelResult where
  model_id : String
  model_info : ModelInfo
  prompt_results : List PromptResult
  aggregated_metrics : AggregatedMetrics

/-- One entry of a ranking list in the run summary. -/
structure RankEntry where
  model_id : String
  score : ℚ
deriving DecidableEq

/-- The `summary` dict of `_calculate_summary`.  The source also
initialises a `metric_averages` key that is never populated; it is
omitted here. -/
structure RunSummary where
  rankings : List (String × List RankEntry)
  best_performers : List (String × String)

/-- The `benchmark_results` dict returned by `run_benchmark`
(minus `id` and `timestamp`, which are uuid/wall-clock inputs). -/
structure BenchmarkRun where
  prompts : List String
  model_ids : List String
  metrics : List String
  results : List (String × ModelResult)
  summary : RunSummary

/-! ## BenchmarkRunner operations -/

/-- `BenchmarkRunner._evaluate_single_prompt`.  The `calculated_metrics`
dict is built in source order (latency, cost, quality,
context_utilization), each guarded only by membership in the requested
`metrics` list — independently of `response_data['success']`. -/
def evaluate_single_prompt (gen : String → ResponseData) (prompt : String)
    (metrics : List String) (mi : ModelInfo) : PromptResult :=
  let rd := gen prompt
  let m1 : List (String × MetricData) :=
    if "latency" ∈ metrics then
      [("latency", { score := calculate_latency_score rd.latency, raw_value := some rd.latency })]
    else []
  let m2 :=
    if "cost" ∈ metrics then
      let cost := ((rd.tokens_used : ℚ) / 1000) * mi.cost_per_1k_tokens
      m1 ++ [("cost", { score := calculate_cost_score cost, raw_value := some cost,
                        tokens_used := some rd.tokens_used })]
    else m1
  let m3 :=
    if "quality" ∈ metrics then
      m2 ++ [("quality", { score := calculate_quality_score (rd.response.getD "") })]
    else m2
  let m4 :=
    if "context_utilization" ∈ metrics then
      let pl := (pyWords prompt).length
      m3 ++ [("context_utilization",
              { score := calculate_context_utilization_score pl mi.max_context_length,
                prompt_length := some pl, max_context := some mi.max_context_length })]
    else m3
  { prompt := prompt, response := rd.response, success := rd.success,
    error := rd.error, metrics := m4 }

/-- `BenchmarkRunner._aggregate_prompt_results`. -/
def aggregate_prompt_results (prompt_results : List PromptResult)
    (metrics : List String) : AggregatedMetrics :=
  let entries := metrics.foldl
    (fun acc metric =>
      let datas := prompt_results.filterMap
        (fun r => if r.success then pyGet metric r.metrics else none)
      let scores := datas.map (fun d => d.score)
      let raw_values := datas.filterMap (fun d => d.raw_value)
      if scores = [] then acc
      else
        let base : AggEntry :=
          { average_score := pySum scores / (scores.length : ℚ),
            min_score := pyMin scores, max_score := pyMax scores,
            count := scores.length }
        let entry :=
          if raw_values = [] then base
          else { base with average_raw := some (pySum raw_values / (raw_values.length : ℚ)),
                           min_raw := some (pyMin raw_values),
                           max_raw := some (pyMax raw_values) }
        dictInsert metric entry acc)
    []
  let overall :=
    if entries = [] then none
    else some (aggregate_scores (entries.map (fun p => (p.1, p.2.average_score))))
  { entries := entries, overall_score := overall }

/-- `BenchmarkRunner._run_model_benchmark`. -/
def run_model_benchmark (c : Connector) (prompts : List String)
    (metrics : List String) (model_id : String) : ModelResult :=
  let mi := c.info
  let prompt_results := prompts.enum.map
    (fun p => { evaluate_single_prompt c.generate p.2 metrics mi with prompt_index := p.1 })
  { model_id := model_id, model_info := mi, prompt_results := prompt_results,
    aggregated_metrics := aggregate_prompt_results prompt_results metrics }

/-- The per-metric ranking list built inside `_calculate_summary`'s
metric loop: every model of `model_scores`, scored by
`scores.get(metric, {}).get('average_score', 0)`, stably sorted
descending. -/
def metric_ranking_pairs (model_scores : List (String × AggregatedMetrics))
    (metric : String) : List (String × ℚ) :=
  pyDescSort (fun q => q.2)
    (model_scores.map
      (fun p => (p.1, ((pyGet metric p.2.entries).map (fun e => e.average_score)).getD 0)))

/-- `BenchmarkRunner._calculate_summary`. -/
def calculate_summary (results : List (String × ModelResult))
    (metrics : List String) : RunSummary :=
  let model_scores : List (String × AggregatedMetrics) :=
    results.map (fun p => (p.1, p.2.aggregated_metrics))
  if model_scores = [] then { rankings := [], best_performers := [] }
  else
    let ranked_models := pyDescSort (fun p => p.2.overall_score.getD 0) model_scores
    let overall_entries := ranked_models.map
      (fun p => RankEntry.mk p.1 (p.2.overall_score.getD 0))
    let final := metrics.foldl
      (fun (st : List (String × List RankEntry) × List (String × String)) metric =>
        let metric_rankings := metric_ranking_pairs model_scores metric
        let rks := dictInsert metric (metric_rankings.map (fun q => RankEntry.mk q.1 q.2)) st.1
        let bps :=
          match metric_rankings with
          | [] => st.2
          | q :: _ => dictInsert metric q.1 st.2
        (rks, bps))
      (dictInsert "overall" overall_entries [], [])
    { rankings := final.1, best_performers := final.2 }

/-- `BenchmarkRunner.run_benchmark`.  The external registry capability
`model_manager.get_model_connector` is the function argument
`getConnector`; an unresolved model (`None`) is skipped with `continue`.
`metrics = none` models the Python default, replaced by
`['latency', 'cost', 'quality']`. -/
def run_benchmark (getConnector : String → Option Connector) (prompts : List String)
    (model_ids : List String) (metrics : Option (List String) := none) : BenchmarkRun :=
  let ms := metrics.getD ["latency", "cost", "quality"]
  let results := model_ids.foldl
    (fun acc mid =>
      match getConnector mid with
      | none => acc
      | some c => dictInsert mid (run_model_benchmark c prompts ms mid) acc)
    []
  { prompts := prompts, model_ids := model_ids, metrics := ms,
    results := results, summary := calculate_summary results ms }

/-! ## Leaderboard (`src/backend/evaluation/leaderboard.py`) -/

/-- One entry of the leaderboard's hardcoded ranking tables; the optional
fields model the metric-specific auxiliary keys. -/
structure LBEntry where
  model_id : String
  score : ℚ
  provider : Option String := none
  avg_latency : Option ℚ := none
  avg_cost : Option ℚ := none
  avg_quality : Option ℚ := none
deriving DecidableEq

/-- Leaderboard state: `__init__` sets an empty cache, `last_update = 0`
and `cache_duration = 300`. -/
structure Leaderboard where
  rankings_cache : List (String × List LBEntry) := []
  last_update : ℚ := 0
  cache_duration : ℚ := 300

/-- The `mock_rankings` table hardcoded inside `Leaderboard.get_rankings`. -/
def mock_rankings : List (String × List LBEntry) :=
  [("overall",
    [{ model_id := "openai_gpt-4", score := 852/10, provider := some "OpenAI" },
     { model_id := "anthropic_claude-3-opus-20240229", score := 837/10, provider := some "Anthropic" },
     { model_id := "anthropic_claude-3-sonnet-20240229", score := 791/10, provider := some "Anthropic" },
     { model_id := "openai_gpt-3.5-turbo", score := 743/10, provider := some "OpenAI" },
     { model_id := "anthropic_claude-3-haiku-20240307", score := 718/10, provider := some "Anthropic" }]),
   ("latency",
    [{ model_id := "anthropic_claude-3-haiku-20240307", score := 921/10, avg_latency := some (8/10) },
     { model_id := "openai_gpt-3.5-turbo", score := 876/10, avg_latency := some (12/10) },
     { model_id := "anthropic_claude-3-sonnet-20240229", score := 823/10, avg_latency := some (18/10) },
     { model_id := "openai_gpt-4", score := 754/10, avg_latency := some (25/10) },
     { model_id := "anthropic_claude-3-opus-20240229", score := 689/10, avg_latency := some (32/10) }]),
   ("cost",
    [{ model_id := "anthropic_claude-3-haiku-20240307", score := 958/10, avg_cost := some (25/10000) },
     { model_id := "openai_gpt-3.5-turbo", score := 932/10, avg_cost := some (2/1000) },
     { model_id := "anthropic_claude-3-sonnet-20240229", score := 784/10, avg_cost := some (15/1000) },
     { model_id := "openai_gpt-4", score := 621/10, avg_cost := some (3/100) },
     { model_id := "anthropic_claude-3-opus-20240229", score := 453/10, avg_cost := some (75/1000) }]),
   ("quality",
    [{ model_id := "openai_gpt-4", score := 917/10, avg_quality := some (917/10) },
     { model_id := "anthropic_claude-3-opus-20240229", score := 902/10, avg_quality := some (902/10) },
     { model_id := "anthropic_claude-3-sonnet-20240229", score := 856/10, avg_quality := some (856/10) },
     { model_id := "openai_gpt-3.5-turbo", score := 789/10, avg_quality := some (789/10) },
     { model_id := "anthropic_claude-3-haiku-20240307", score := 764/10, avg_quality := some (764/10) }])]

/-- The dict `Leaderboard.get_rankings` returns; `last_updated` is the
wall clock, taken as the input `now`. -/
structure RankingsResponse where
  rankings : List LBEntry
  last_updated : ℚ
  total_benchmarks : ℕ
  total_models : ℕ
deriving DecidableEq

/-- `Leaderboard.get_rankings`: returns the hardcoded `mock_rankings`
table for the requested metric (falling back to the `overall` table),
reading nothing from the leaderboard state `lb`. -/
def get_rankings (lb : Leaderboard) (metric : String := "overall") (now : ℚ := 0) : RankingsResponse :=
  let _ := lb
  { rankings := (pyGet metric mock_rankings).getD ((pyGet "overall" mock_rankings).getD []),
    last_updated := now, total_benchmarks := 15, total_models := 5 }

/-- `Leaderboard.update_rankings`: clears the cache and stamps
`last_update`; the `benchmark_results` argument is not used. -/
def update_rankings (lb : Leaderboard) (benchmark_results : BenchmarkRun) (now : ℚ) : Leaderboard :=
  let _ := benchmark_results
  { lb with rankings_cache := [], last_update := now }

/-! ## Concrete fixtures for counterexamples and witnesses -/

/-- A deterministic stub connector that always succeeds. -/
def okConnector : Connector :=
  { generate := fun _ =>
      { response := some "Hi there.", latency := 1/2, tokens_used := 100, success := true },
    info := { name := "ok", provider := "Stub", max_context_length := 4096,
              cost_per_1k_tokens := 1/100 } }

/-- A deterministic stub connector whose generation always fails
(shaped like the connectors' `except` branch: `response = None`,
`tokens_used = 0`, `success = False`, an error message). -/
def failConnector : Connector :=
  { generate := fun _ =>
      { response := none, latency := 1/5, tokens_used := 0, success := false,
        error := some "boom" },
    info := { name := "bad", provider := "Stub", max_context_length := 4096,
              cost_per_1k_tokens := 1/100 } }

/-- A two-model registry: `"a"` resolves to the succeeding stub, `"b"` to
the always-failing stub, everything else is unresolved. -/
def stubRegistry : String → Option Connector := fun mid =>
  if mid = "a" then some okConnector
  else if mid = "b" then some failConnector
  else none

/-! ## Spec-side definitions (for refinement comparisons only)

These follow the WORDS of the spec, to be compared with the
source-derived definitions above. -/

/-- Modelled from the spec: "if a reference text is supplied, the final
score is the midpoint between the heuristic score and
`100 × Jaccard-word-overlap(response, reference)`. Clamped to [0,100].
Empty response → 0 unconditionally."  The heuristic score is the
reference-free quality score. -/
def quality_score_spec (response : String) (reference : String) : ℚ :=
  if response = "" then 0
  else
    min 100 (max 0
      ((calculate_quality_score response none +
        100 * calculate_text_similarity response reference) / 2))

/-- Spec formula: the effective total weight
`Σ weight` of `aggregate(scores, weights?)`, with an absent metric
weighted `0.1`. -/
def spec_total_weight (scores : List (String × ℚ))
    (weights : Option (List (String × ℚ))) : ℚ :=
  pySum (scores.map (fun p => (pyGet p.1 (weights.getD default_weights)).getD (1/10)))

/-- Spec formula: the weighted sum `Σ (score·weight)` of
`aggregate(scores, weights?)`. -/
def spec_weighted_sum (scores : List (String × ℚ))
    (weights : Option (List (String × ℚ))) : ℚ :=
  pySum (scores.map (fun p => p.2 * ((pyGet p.1 (weights.getD default_weights)).getD (1/10))))

/-! ## Proof-side views of runner internals -/

/-- The list of metric dicts that `_aggregate_prompt_results` collects
for one metric: those of succeeded prompt results that carry the metric. -/
def agg_datas (rs : List PromptResult) (metric : String) : List MetricData :=
  rs.filterMap (fun r => if r.success then pyGet metric r.metrics else none)

/-- The aggregated entry `_aggregate_prompt_results` would store for one
metric: `none` when no succeeded result carries the metric. -/
def agg_entry_for (rs : List PromptResult) (metric : String) : Option AggEntry :=
  let datas := agg_datas rs metric
  let scores := datas.map (fun d => d.score)
  let raw_values := datas.filterMap (fun d => d.raw_value)
  if scores = [] then none
  else
    let base : AggEntry :=
      { average_score := pySum scores / (scores.length : ℚ),
        min_score := pyMin scores, max_score := pyMax scores,
        count := scores.length }
    some (if raw_values = [] then base
      else { base with average_raw := some (pySum raw_values / (raw_values.length : ℚ)),
                       min_raw := some (pyMin raw_values),
                       max_raw := some (pyMax raw_values) })

/-- The aggregated-entries dict rebuilt from `agg_entry_for`
(proved equal to the source's fold below). -/
def agg_entries_model (rs : List PromptResult) (ms : List String) :
    List (String × AggEntry) :=
  ms.foldl (fun acc m => (agg_entry_for rs m).elim acc (fun v => dictInsert m v acc)) []

/-- The value `run_benchmark` stores for a model id: `none` when the
registry cannot resolve it. -/
def model_value (g : String → Option Connector) (prompts ms : List String)
    (mid : String) : Option ModelResult :=
  (g mid).map (fun c => run_model_benchmark c prompts ms mid)

/-- The results dict rebuilt from `model_value`
(proved equal to the source's fold below). -/
def results_model (g : String → Option Connector) (prompts ms mids : List String) :
    List (String × ModelResult) :=
  mids.foldl
    (fun acc mid => (model_value g prompts ms mid).elim acc (fun v => dictInsert mid v acc)) []

/-- The overall score a model contributes to the overall ranking:
its stored `overall_score`, defaulting to 0 (also when unresolved). -/
def stored_overall (g : String → Option Connector) (prompts ms : List String)
    (mid : String) : ℚ :=
  ((model_value g prompts ms mid).map
    (fun v => v.aggregated_metrics.overall_score.getD 0)).getD 0

/-- The score a model contributes to a per-metric ranking: the metric's
stored average score, defaulting to 0 (also when unresolved). -/
def stored_metric_score (g : String → Option Connector) (prompts ms : List String)
    (metric mid : String) : ℚ :=
  ((model_value g prompts ms mid).map
    (fun v => ((pyGet metric v.aggregated_metrics.entries).map
      (fun e => e.average_score)).getD 0)).getD 0

/-- The per-metric ranking entries of the summary. -/
def rank_entries_for (model_scores : List (String × AggregatedMetrics))
    (metric : String) : List RankEntry :=
  (metric_ranking_pairs model_scores metric).map (fun q => RankEntry.mk q.1 q.2)

/-- The best performer recorded for a metric: the head of that metric's
ranking, if any. -/
def best_for (model_scores : List (String × AggregatedMetrics))
    (metric : String) : Option String :=
  match metric_ranking_pairs model_scores metric with
  | [] => none
  | q :: _ => some q.1

/-- The overall ranking entries of the summary. -/
def overall_entries_for (model_scores : List (String × AggregatedMetrics)) :
    List RankEntry :=
  (pyDescSort (fun p => p.2.overall_score.getD 0) model_scores).map
    (fun p => RankEntry.mk p.1 (p.2.overall_score.getD 0))

/-- The summary's metric loop rebuilt from `rank_entries_for`/`best_for`
(proved equal to the source's fold below). -/
def summary_fold (model_scores : List (String × AggregatedMetrics)) (ms : List String) :
    List (String × List RankEntry) × List (String × String) :=
  ms.foldl
    (fun st metric =>
      ((some (rank_entries_for model_scores metric)).elim st.1
        (fun v => dictInsert metric v st.1),
       (best_for model_scores metric).elim st.2 (fun v => dictInsert metric v st.2)))
    (dictInsert "overall" (overall_entries_for model_scores) [], [])

/-! ## Helper lemmas -/

theorem pyGet_dictInsert_self (k : String) (v : α) (l : List (String × α)) :
    pyGet k (dictInsert k v l) = some v := by
  induction l with
  | nil => simp [dictInsert, pyGet]
  | cons p rest ih =>
    by_cases h : p.1 = k
    · simp [dictInsert, pyGet, h]
    · simp [dictInsert, pyGet, h, ih]

theorem pyGet_dictInsert_ne (k x : String) (v : α) (l : List (String × α)) (h : x ≠ k) :
    pyGet x (dictInsert k v l) = pyGet x l := by
  induction l with
  | nil => simp [dictInsert, pyGet, Ne.symm h]
  | cons p rest ih =>
    by_cases hp : p.1 = k
    · subst hp
      simp [dictInsert, pyGet, Ne.symm h]
    · simp only [dictInsert, if_neg hp, pyGet]
      by_cases hx : p.1 = x
      · simp [hx]
      · simp [hx, ih]

theorem pyGet_isSome_iff (x : String) (l : List (String × α)) :
    (pyGet x l).isSome = true ↔ x ∈ l.map Prod.fst := by
  induction l with
  | nil => simp [pyGet]
  | cons p rest ih =>
    by_cases h : p.1 = x
    · simp [pyGet, h]
    · simp [pyGet, h, ih, Ne.symm h]

theorem pyGet_eq_none_iff (x : String) (l : List (String × α)) :
    pyGet x l = none ↔ x ∉ l.map Prod.fst := by
  rw [← pyGet_isSome_iff]
  cases pyGet x l <;> simp

/-- Looking a key up after a fold of conditional `dictInsert`s whose
inserted value depends only on the key: the result is the key's own
value if it was inserted, the base lookup otherwise. -/
theorem pyGet_dictFold (f : String → Option α)
    (step : List (String × α) → String → List (String × α))
    (hstep : ∀ a m, step a m = (f m).elim a (fun v => dictInsert m v a)) :
    ∀ (ms : List String) (acc : List (String × α)) (x : String),
      pyGet x (ms.foldl step acc) =
        if x ∈ ms ∧ (f x).isSome then f x else pyGet x acc := by
  intro ms
  induction ms with
  | nil => intro acc x; simp
  | cons m rest ih =>
    intro acc x
    rw [List.foldl_cons, ih]
    by_cases hx : x ∈ rest ∧ (f x).isSome
    · rw [if_pos hx, if_pos ⟨List.mem_cons_of_mem m hx.1, hx.2⟩]
    · rw [if_neg hx, hstep]
      by_cases hxm : x = m
      · subst hxm
        cases hf : f x with
        | none => simp [hf]
        | some v => simp [hf, pyGet_dictInsert_self]
      · cases hf : f m with
        | none =>
          have hiff : (x ∈ m :: rest ∧ (f x).isSome) ↔ (x ∈ rest ∧ (f x).isSome) := by
            simp [List.mem_cons, hxm]
          rw [if_neg (by rw [hiff]; exact hx)]
          rfl
        | some v =>
          simp only [Option.elim_some]
          rw [pyGet_dictInsert_ne m x v acc hxm]
          have hiff : (x ∈ m :: rest ∧ (f x).isSome) ↔ (x ∈ rest ∧ (f x).isSome) := by
            simp [List.mem_cons, hxm]
          rw [if_neg (by rw [hiff]; exact hx)]

/-- Two-component variant of `pyGet_dictFold`, for a fold carrying a pair
of dictionaries each updated by a key-determined conditional insert. -/
theorem pyGet_pairFold (f1 : String → Option α) (f2 : String → Option δ)
    (step : List (String × α) × List (String × δ) → String →
      List (String × α) × List (String × δ))
    (hstep : ∀ st m, step st m =
      ((f1 m).elim st.1 (fun v => dictInsert m v st.1),
       (f2 m).elim st.2 (fun v => dictInsert m v st.2))) :
    ∀ (ms : List String) (st : List (String × α) × List (String × δ)) (x : String),
      pyGet x ((ms.foldl step st).1) =
        (if x ∈ ms ∧ (f1 x).isSome then f1 x else pyGet x st.1) ∧
      pyGet x ((ms.foldl step st).2) =
        (if x ∈ ms ∧ (f2 x).isSome then f2 x else pyGet x st.2) := by
  intro ms
  induction ms with
  | nil => intro st x; simp
  | cons m rest ih =>
    intro st x
    rw [List.foldl_cons, hstep]
    obtain ⟨ih1, ih2⟩ := ih
      ((f1 m).elim st.1 (fun v => dictInsert m v st.1),
       (f2 m).elim st.2 (fun v => dictInsert m v st.2)) x
    constructor
    · rw [ih1]
      by_cases hx : x ∈ rest ∧ (f1 x).isSome
      · rw [if_pos hx, if_pos ⟨List.mem_cons_of_mem m hx.1, hx.2⟩]
      · rw [if_neg hx]
        by_cases hxm : x = m
        · subst hxm
          cases hf : f1 x with
          | none => simp [hf]
          | some v => simp [hf, pyGet_dictInsert_self]
        · have hiff : (x ∈ m :: rest ∧ (f1 x).isSome) ↔ (x ∈ rest ∧ (f1 x).isSome) := by
            simp [List.mem_cons, hxm]
          cases hf : f1 m with
          | none =>
            rw [if_neg (by rw [hiff]; exact hx)]
            rfl
          | some v =>
            simp only [Option.elim_some]
            rw [pyGet_dictInsert_ne m x v st.1 hxm, if_neg (by rw [hiff]; exact hx)]
    · rw [ih2]
      by_cases hx : x ∈ rest ∧ (f2 x).isSome
      · rw [if_pos hx, if_pos ⟨List.mem_cons_of_mem m hx.1, hx.2⟩]
      · rw [if_neg hx]
        by_cases hxm : x = m
        · subst hxm
          cases hf : f2 x with
          | none => simp [hf]
          | some v => simp [hf, pyGet_dictInsert_self]
        · have hiff : (x ∈ m :: rest ∧ (f2 x).isSome) ↔ (x ∈ rest ∧ (f2 x).isSome) := by
            simp [List.mem_cons, hxm]
          cases hf : f2 m with
          | none =>
            rw [if_neg (by rw [hiff]; exact hx)]
            rfl
          | some v =>
            simp only [Option.elim_some]
            rw [pyGet_dictInsert_ne m x v st.2 hxm, if_neg (by rw [hiff]; exact hx)]

theorem pySum_cons (a : ℚ) (l : List ℚ) : pySum (a :: l) = a + pySum l := by
  have key : ∀ (l : List ℚ) (x : ℚ), l.foldl (· + ·) x = x + l.foldl (· + ·) 0 := by
    intro l
    induction l with
    | nil => intro x; simp
    | cons b t ih =>
      intro x
      rw [List.foldl_cons, List.foldl_cons, ih (x + b), ih (0 + b)]
      ring
  rw [pySum, pySum, List.foldl_cons, key l (0 + a)]
  ring

theorem length_filterMap_eq_length_filter (g : α → Option β) (l : List α) :
    (l.filterMap g).length = (l.filter (fun x => (g x).isSome)).length := by
  induction l with
  | nil => rfl
  | cons a t ih =>
    cases hg : g a with
    | none => simp [List.filterMap_cons, List.filter_cons, hg, ih]
    | some b => simp [List.filterMap_cons, List.filter_cons, hg, ih]

theorem pyDescSort_perm (key : α → ℚ) (l : List α) : List.Perm (pyDescSort key l) l :=
  List.perm_insertionSort _ l

theorem pyDescSort_sorted (key : α → ℚ) (l : List α) :
    (pyDescSort key l).Sorted (fun a b => key b ≤ key a) := by
  haveI : IsTotal α (fun a b => key b ≤ key a) := ⟨fun a b => le_total (key b) (key a)⟩
  haveI : IsTrans α (fun a b => key b ≤ key a) :=
    ⟨fun _ _ _ h1 h2 => le_trans h2 h1⟩
  exact List.sorted_insertionSort _ l

theorem pyDescSort_pair_sublist (key : α → ℚ) {a b : α} {l : List α}
    (hab : key b ≤ key a) (h : List.Sublist [a, b] l) :
    List.Sublist [a, b] (pyDescSort key l) :=
  List.pair_sublist_insertionSort hab h

theorem pyDescSort_length (key : α → ℚ) (l : List α) :
    (pyDescSort key l).length = l.length :=
  (pyDescSort_perm key l).length_eq

/-- The accumulator fold of `aggregate_scores` computes the pair of the
spec's weighted sum and total weight. -/
theorem aggregate_scores_fold (w : List (String × ℚ)) (scores : List (String × ℚ))
    (x y : ℚ) :
    scores.foldl (fun acc p =>
        (acc.1 + p.2 * ((pyGet p.1 w).getD (1/10)), acc.2 + (pyGet p.1 w).getD (1/10)))
      (x, y)
    = (x + spec_weighted_sum scores (some w), y + spec_total_weight scores (some w)) := by
  induction scores generalizing x y with
  | nil => simp [spec_weighted_sum, spec_total_weight, pySum]
  | cons p t ih =>
    rw [List.foldl_cons, ih]
    simp only [spec_weighted_sum, spec_total_weight, Option.getD_some, List.map_cons,
      pySum_cons, Prod.mk.injEq]
    constructor <;> ring

/-- The metric names of any single-prompt evaluation are exactly the
supported metrics that were requested, regardless of success. -/
theorem eval_metrics_keys (gen : String → ResponseData) (prompt : String)
    (ms : List String) (mi : ModelInfo) :
    (evaluate_single_prompt gen prompt ms mi).metrics.map Prod.fst
      = ["latency", "cost", "quality", "context_utilization"].filter (· ∈ ms) := by
  by_cases hl : "latency" ∈ ms <;> by_cases hc : "cost" ∈ ms <;>
    by_cases hq : "quality" ∈ ms <;> by_cases hu : "context_utilization" ∈ ms <;>
    simp [evaluate_single_prompt, hl, hc, hq, hu, List.filter]

/-- The source's aggregation fold builds exactly `agg_entries_model`. -/
theorem aggregate_entries_eq_model (rs : List PromptResult) (ms : List String) :
    (aggregate_prompt_results rs ms).entries = agg_entries_model rs ms := by
  simp only [aggregate_prompt_results, agg_entries_model]
  congr 1
  funext acc m
  have hfold :
      rs.filterMap (fun r => if r.success then pyGet m r.metrics else none)
        = agg_datas rs m := rfl
  rw [hfold]
  simp only [agg_entry_for]
  by_cases h : ((agg_datas rs m).map (fun d => d.score)) = []
  · rw [if_pos h, if_pos h]
    rfl
  · rw [if_neg h, if_neg h]
    rfl

/-- Looking up a metric in the aggregated entries: present iff it was
requested and some succeeded result carries it, with the value
`agg_entry_for` describes. -/
theorem aggregate_entries_lookup (rs : List PromptResult) (ms : List String)
    (metric : String) :
    pyGet metric (aggregate_prompt_results rs ms).entries =
      if metric ∈ ms ∧ (agg_entry_for rs metric).isSome then agg_entry_for rs metric
      else none := by
  rw [aggregate_entries_eq_model, agg_entries_model,
    pyGet_dictFold (agg_entry_for rs) _ (fun _ _ => rfl) ms [] metric]
  by_cases hx : metric ∈ ms ∧ (agg_entry_for rs metric).isSome
  · rw [if_pos hx, if_pos hx]
  · rw [if_neg hx, if_neg hx]
    rfl

/-- The success-and-carries-metric filter used by aggregation, restated
with an explicit boolean conjunction. -/
theorem agg_filter_eq (rs : List PromptResult) (metric : String) :
    (rs.filter (fun r => (if r.success then pyGet metric r.metrics else none).isSome)).length
      = (rs.filter (fun r => r.success && (pyGet metric r.metrics).isSome)).length := by
  have : (fun (r : PromptResult) => (if r.success then pyGet metric r.metrics else none).isSome)
      = (fun r => r.success && (pyGet metric r.metrics).isSome) := by
    funext r
    cases hr : r.success <;> simp [hr]
  rw [this]

/-- Count and positivity of an aggregated entry: `count` is the number
of prompt results that succeeded AND carry the metric, and is positive
whenever the entry exists. -/
theorem agg_count_eq (rs : List PromptResult) (ms : List String) (metric : String)
    (e : AggEntry)
    (h : pyGet metric (aggregate_prompt_results rs ms).entries = some e) :
    e.count = (rs.filter (fun r => r.success && (pyGet metric r.metrics).isSome)).length ∧
    0 < e.count := by
  rw [aggregate_entries_lookup] at h
  by_cases hc : metric ∈ ms ∧ (agg_entry_for rs metric).isSome
  · rw [if_pos hc] at h
    simp only [agg_entry_for] at h
    by_cases hs : ((agg_datas rs metric).map (fun d => d.score)) = []
    · rw [if_pos hs] at h
      cases h
    · rw [if_neg hs] at h
      have he := Option.some.inj h
      have hcount : e.count = ((agg_datas rs metric).map (fun d => d.score)).length := by
        by_cases hraw : (agg_datas rs metric).filterMap (fun d => d.raw_value) = []
        · rw [if_pos hraw] at he
          rw [← he]
        · rw [if_neg hraw] at he
          rw [← he]
      have hlen : ((agg_datas rs metric).map (fun d => d.score)).length
          = (rs.filter (fun r => r.success && (pyGet metric r.metrics).isSome)).length := by
        rw [List.length_map, agg_datas,
          length_filterMap_eq_length_filter, agg_filter_eq]
      refine ⟨hcount.trans hlen, ?_⟩
      rw [hcount]
      exact List.length_pos.mpr hs
  · rw [if_neg hc] at h
    cases h

/-- The source's results fold builds exactly `results_model`. -/
theorem run_benchmark_results (g : String → Option Connector)
    (prompts mids : List String) (metrics : Option (List String)) :
    (run_benchmark g prompts mids metrics).results
      = results_model g prompts (metrics.getD ["latency", "cost", "quality"]) mids := by
  simp only [run_benchmark, results_model, model_value]
  congr 1
  funext acc mid
  cases hg : g mid
  · rfl
  · rfl

/-- The summary of a run is computed from its results and effective
metric list. -/
theorem run_benchmark_summary (g : String → Option Connector)
    (prompts mids : List String) (metrics : Option (List String)) :
    (run_benchmark g prompts mids metrics).summary
      = calculate_summary (run_benchmark g prompts mids metrics).results
          (metrics.getD ["latency", "cost", "quality"]) := rfl

/-- Looking a model id up in the results dict. -/
theorem results_lookup (g : String → Option Connector) (prompts ms mids : List String)
    (x : String) :
    pyGet x (results_model g prompts ms mids)
      = if x ∈ mids ∧ (model_value g prompts ms x).isSome then model_value g prompts ms x
        else none := by
  rw [results_model, pyGet_dictFold (model_value g prompts ms) _ (fun _ _ => rfl) mids []]
  by_cases hx : x ∈ mids ∧ (model_value g prompts ms x).isSome
  · rw [if_pos hx, if_pos hx]
  · rw [if_neg hx, if_neg hx]
    rfl

/-- Resolvability of a model id is the presence of its stored value. -/
theorem model_value_isSome (g : String → Option Connector) (prompts ms : List String)
    (x : String) : (model_value g prompts ms x).isSome = (g x).isSome := by
  rw [model_value]
  cases g x <;> rfl

/-- A model id appears among the results keys iff it was requested and
its connector resolves. -/
theorem results_keys_mem (g : String → Option Connector) (prompts ms mids : List String)
    (x : String) :
    x ∈ (results_model g prompts ms mids).map Prod.fst
      ↔ x ∈ mids ∧ (g x).isSome := by
  rw [← pyGet_isSome_iff, results_lookup]
  by_cases hx : x ∈ mids ∧ (model_value g prompts ms x).isSome
  · rw [if_pos hx]
    simp only [hx.2, true_iff]
    exact ⟨hx.1, by rw [← model_value_isSome g prompts ms x]; exact hx.2⟩
  · rw [if_neg hx]
    simp only [Option.isSome_none, Bool.false_eq_true, false_iff]
    intro hcon
    exact hx ⟨hcon.1, by rw [model_value_isSome g prompts ms x]; exact hcon.2⟩

/-- The source's summary computation equals the
`summary_fold`-based model. -/
theorem calculate_summary_eq (results : List (String × ModelResult)) (ms : List String) :
    calculate_summary results ms
      = if results.map (fun p => (p.1, p.2.aggregated_metrics)) = [] then
          { rankings := [], best_performers := [] }
        else
          { rankings :=
              (summary_fold (results.map (fun p => (p.1, p.2.aggregated_metrics))) ms).1,
            best_performers :=
              (summary_fold (results.map (fun p => (p.1, p.2.aggregated_metrics))) ms).2 } := by
  simp only [calculate_summary, summary_fold, rank_entries_for, best_for, overall_entries_for]
  by_cases h : results.map (fun p => (p.1, p.2.aggregated_metrics)) = []
  · rw [if_pos h, if_pos h]
  · rw [if_neg h, if_neg h]
    congr 1
    · exact congrArg Prod.fst (List.foldl_ext _ _ _ (fun st metric _ => by
        cases hmr : metric_ranking_pairs
          (results.map (fun p => (p.1, p.2.aggregated_metrics))) metric <;> rfl))
    · exact congrArg Prod.snd (List.foldl_ext _ _ _ (fun st metric _ => by
        cases hmr : metric_ranking_pairs
          (results.map (fun p => (p.1, p.2.aggregated_metrics))) metric <;> rfl))

/-- Key lookups through the summary's metric loop: per-metric rankings
are always inserted; best performers only when the ranking is nonempty. -/
theorem summary_fold_lookup (MS : List (String × AggregatedMetrics)) (ms : List String)
    (x : String) :
    pyGet x (summary_fold MS ms).1
      = (if x ∈ ms then some (rank_entries_for MS x)
         else pyGet x (dictInsert "overall" (overall_entries_for MS) [])) ∧
    pyGet x (summary_fold MS ms).2
      = (if x ∈ ms ∧ (best_for MS x).isSome then best_for MS x else none) := by
  have hp := pyGet_pairFold (fun m => some (rank_entries_for MS m)) (best_for MS)
    (fun st metric =>
      ((some (rank_entries_for MS metric)).elim st.1 (fun v => dictInsert metric v st.1),
       (best_for MS metric).elim st.2 (fun v => dictInsert metric v st.2)))
    (fun _ _ => rfl) ms (dictInsert "overall" (overall_entries_for MS) [], []) x
  constructor
  · rw [show pyGet x (summary_fold MS ms).1
        = pyGet x ((ms.foldl (fun st metric =>
            ((some (rank_entries_for MS metric)).elim st.1 (fun v => dictInsert metric v st.1),
             (best_for MS metric).elim st.2 (fun v => dictInsert metric v st.2)))
          (dictInsert "overall" (overall_entries_for MS) [], [])).1) from rfl, hp.1]
    by_cases hx : x ∈ ms
    · rw [if_pos ⟨hx, rfl⟩, if_pos hx]
    · rw [if_neg (fun hc => hx hc.1), if_neg hx]
  · rw [show pyGet x (summary_fold MS ms).2
        = pyGet x ((ms.foldl (fun st metric =>
            ((some (rank_entries_for MS metric)).elim st.1 (fun v => dictInsert metric v st.1),
             (best_for MS metric).elim st.2 (fun v => dictInsert metric v st.2)))
          (dictInsert "overall" (overall_entries_for MS) [], [])).2) from rfl, hp.2]
    by_cases hx : x ∈ ms ∧ (best_for MS x).isSome
    · rw [if_pos hx, if_pos hx]
    · rw [if_neg hx, if_neg hx]
      rfl

/-- A requested metric's ranking in a nonempty summary. -/
theorem summary_rankings_lookup (results : List (String × ModelResult)) (ms : List String)
    (metric : String)
    (hres : ¬ results.map (fun p => (p.1, p.2.aggregated_metrics)) = [])
    (hm : metric ∈ ms) :
    pyGet metric (calculate_summary results ms).rankings
      = some (rank_entries_for (results.map (fun p => (p.1, p.2.aggregated_metrics))) metric) := by
  rw [calculate_summary_eq, if_neg hres]
  dsimp only
  rw [(summary_fold_lookup (results.map (fun p => (p.1, p.2.aggregated_metrics))) ms metric).1,
    if_pos hm]

/-- The overall ranking in a nonempty summary (when no requested metric
shadows the `"overall"` key). -/
theorem summary_overall_lookup (results : List (String × ModelResult)) (ms : List String)
    (hres : ¬ results.map (fun p => (p.1, p.2.aggregated_metrics)) = [])
    (hov : "overall" ∉ ms) :
    pyGet "overall" (calculate_summary results ms).rankings
      = some (overall_entries_for (results.map (fun p => (p.1, p.2.aggregated_metrics)))) := by
  rw [calculate_summary_eq, if_neg hres]
  dsimp only
  rw [(summary_fold_lookup (results.map (fun p => (p.1, p.2.aggregated_metrics))) ms
    "overall").1, if_neg hov, pyGet_dictInsert_self]

/-- A requested metric's best performer in a nonempty summary. -/
theorem summary_best_lookup (results : List (String × ModelResult)) (ms : List String)
    (metric : String)
    (hres : ¬ results.map (fun p => (p.1, p.2.aggregated_metrics)) = [])
    (hm : metric ∈ ms) :
    pyGet metric (calculate_summary results ms).best_performers
      = best_for (results.map (fun p => (p.1, p.2.aggregated_metrics))) metric := by
  rw [calculate_summary_eq, if_neg hres]
  dsimp only
  rw [(summary_fold_lookup (results.map (fun p => (p.1, p.2.aggregated_metrics))) ms metric).2]
  by_cases hb : (best_for (results.map (fun p => (p.1, p.2.aggregated_metrics))) metric).isSome
  · rw [if_pos ⟨hm, hb⟩]
  · rw [if_neg (fun hc => hb hc.2)]
    cases hbf : best_for (results.map (fun p => (p.1, p.2.aggregated_metrics))) metric with
    | none => rfl
    | some q => rw [hbf] at hb; simp at hb

/-- Every ranking list stored in the summary is either a per-metric
ranking or the overall ranking. -/
theorem summary_rankings_values (results : List (String × ModelResult)) (ms : List String)
    (metric : String) (rk : List RankEntry)
    (h : pyGet metric (calculate_summary results ms).rankings = some rk) :
    rk = rank_entries_for (results.map (fun p => (p.1, p.2.aggregated_metrics))) metric ∨
    rk = overall_entries_for (results.map (fun p => (p.1, p.2.aggregated_metrics))) := by
  rw [calculate_summary_eq] at h
  by_cases hres : results.map (fun p => (p.1, p.2.aggregated_metrics)) = []
  · rw [if_pos hres] at h
    simp [pyGet] at h
  · rw [if_neg hres] at h
    dsimp only
        at h
    rw [(summary_fold_lookup (results.map (fun p => (p.1, p.2.aggregated_metrics))) ms
      metric).1] at h
    by_cases hm : metric ∈ ms
    · rw [if_pos hm] at h
      exact Or.inl (Option.some.inj h).symm
    · rw [if_neg hm] at h
      by_cases ho : metric = "overall"
      · subst ho
        rw [pyGet_dictInsert_self] at h
        exact Or.inr (Option.some.inj h).symm
      · rw [pyGet_dictInsert_ne _ _ _ _ ho] at h
        simp [pyGet] at h

/-- Identifiers of a per-metric ranking. -/
theorem rank_entries_ids (MS : List (String × AggregatedMetrics)) (metric : String) :
    (rank_entries_for MS metric).map (fun e => e.model_id)
      = (metric_ranking_pairs MS metric).map Prod.fst := by
  rw [rank_entries_for, List.map_map]
  rfl

/-- The per-metric ranking is a permutation of the models. -/
theorem metric_pairs_ids_perm (MS : List (String × AggregatedMetrics)) (metric : String) :
    List.Perm ((metric_ranking_pairs MS metric).map Prod.fst) (MS.map Prod.fst) := by
  have h := List.Perm.map Prod.fst (pyDescSort_perm (fun q : String × ℚ => q.2)
    (MS.map (fun p =>
      (p.1, ((pyGet metric p.2.entries).map (fun e => e.average_score)).getD 0))))
  rw [List.map_map] at h
  exact h

/-- The overall ranking is a permutation of the models. -/
theorem overall_entries_ids_perm (MS : List (String × AggregatedMetrics)) :
    List.Perm ((overall_entries_for MS).map (fun e => e.model_id)) (MS.map Prod.fst) := by
  rw [overall_entries_for, List.map_map]
  exact List.Perm.map _
    (pyDescSort_perm (fun p : String × AggregatedMetrics => p.2.overall_score.getD 0) MS)

/-- Every ranking stored in a summary lists a permutation of the
results' model ids. -/
theorem summary_ranking_ids_perm (results : List (String × ModelResult)) (ms : List String)
    (metric : String) (rk : List RankEntry)
    (h : pyGet metric (calculate_summary results ms).rankings = some rk) :
    List.Perm (rk.map (fun e => e.model_id)) (results.map Prod.fst) := by
  have hkeys : (results.map (fun p => (p.1, p.2.aggregated_metrics))).map Prod.fst
      = results.map Prod.fst := by
    rw [List.map_map]
    rfl
  rcases summary_rankings_values results ms metric rk h with hr | hr
  · subst hr
    rw [rank_entries_ids, ← hkeys]
    exact metric_pairs_ids_perm _ metric
  · subst hr
    rw [← hkeys]
    exact overall_entries_ids_perm _

theorem mem_dictInsert (k : String) (v : α) (l : List (String × α)) (p : String × α)
    (hp : p ∈ dictInsert k v l) : p = (k, v) ∨ p ∈ l := by
  induction l with
  | nil =>
    simp only [dictInsert, List.mem_singleton] at hp
    exact Or.inl hp
  | cons q rest ih =>
    simp only [dictInsert] at hp
    by_cases hq : q.1 = k
    · rw [if_pos hq] at hp
      rcases List.mem_cons.mp hp with h | h
      · exact Or.inl h
      · exact Or.inr (List.mem_cons_of_mem q h)
    · rw [if_neg hq] at hp
      rcases List.mem_cons.mp hp with h | h
      · exact Or.inr (h ▸ List.mem_cons_self q rest)
      · rcases ih h with h2 | h2
        · exact Or.inl h2
        · exact Or.inr (List.mem_cons_of_mem q h2)

/-- Every stored result value is a model run of a resolved connector. -/
theorem mem_results_model (g : String → Option Connector) (prompts ms : List String) :
    ∀ (mids : List String) (acc : List (String × ModelResult)) (p : String × ModelResult),
      p ∈ mids.foldl
        (fun acc mid => (model_value g prompts ms mid).elim acc
          (fun v => dictInsert mid v acc)) acc →
      p ∈ acc ∨ model_value g prompts ms p.1 = some p.2 := by
  intro mids
  induction mids with
  | nil => intro acc p hp; exact Or.inl hp
  | cons m rest ih =>
    intro acc p hp
    rw [List.foldl_cons] at hp
    rcases ih _ p hp with h | h
    · cases hm : model_value g prompts ms m with
      | none =>
        rw [hm] at h
        exact Or.inl h
      | some v =>
        rw [hm] at h
        simp only [Option.elim_some] at h
        rcases mem_dictInsert m v acc p h with h2 | h2
        · right
          rw [h2]
          exact hm
        · exact Or.inl h2
    · exact Or.inr h

theorem agg_entries_model_nil (ms : List String) : agg_entries_model [] ms = [] := by
  rw [agg_entries_model]
  have h : ∀ (l : List String) (acc : List (String × AggEntry)),
      l.foldl (fun acc m => (agg_entry_for [] m).elim acc (fun v => dictInsert m v acc)) acc
        = acc := by
    intro l
    induction l with
    | nil => intro acc; rfl
    | cons m t ih =>
      intro acc
      rw [List.foldl_cons,
        show ((agg_entry_for ([] : List PromptResult) m).elim acc
          (fun v => dictInsert m v acc)) = acc from rfl]
      exact ih acc
  exact h ms []

/-- The overall score is present iff some metric aggregated. -/
theorem aggregate_overall_eq (rs : List PromptResult) (ms : List String) :
    (aggregate_prompt_results rs ms).overall_score
      = if (aggregate_prompt_results rs ms).entries = [] then none
        else some (aggregate_scores
          ((aggregate_prompt_results rs ms).entries.map (fun p => (p.1, p.2.average_score)))) :=
  rfl

/-- Claim C5: the latency score is 100 for latency ≤ 1, 0 for
latency ≥ 10, and `100·(10−latency)/9` in between; it is monotonic
non-increasing, with exact values 100 at 1.0, 500/9 (≈55.6) at 5.0 and
0 at 10.0. -/
theorem C5_latency_score (l1 l2 : ℚ) (h : l1 ≤ l2) :
    calculate_latency_score l2 ≤ calculate_latency_score l1 ∧
    (l1 ≤ 1 → calculate_latency_score l1 = 100) ∧
    (10 ≤ l1 → calculate_latency_score l1 = 0) ∧
    (1 < l1 → l1 < 10 → calculate_latency_score l1 = 100 * (10 - l1) / 9) ∧
    calculate_latency_score 1 = 100 ∧
    calculate_latency_score 5 = 500 / 9 ∧
    |calculate_latency_score 5 - 556/10| < 1/10 ∧
    calculate_latency_score 10 = 0 := by
  refine ⟨?_, ?_, ?_, ?_, ?_, ?_, ?_, ?_⟩
  · unfold calculate_latency_score
    split_ifs
    all_goals try linarith
    all_goals try (apply max_le <;> linarith)
    all_goals try (exact le_max_left _ _)
    all_goals exact max_le_max (le_refl 0) (by linarith)
  · intro h1
    simp [calculate_latency_score, h1]
  · intro h1
    have : ¬ l1 ≤ 1 := by linarith
    simp [calculate_latency_score, this, h1]
  · intro h1 h2
    have hn1 : ¬ l1 ≤ 1 := by linarith
    have hn2 : ¬ l1 ≥ 10 := by linarith
    simp only [calculate_latency_score, if_neg hn1, if_neg hn2]
    rw [max_eq_right]
    have h9 : (0:ℚ) < 9 := by norm_num
    apply div_nonneg _ (by norm_num)
    nlinarith
  · norm_num [calculate_latency_score]
  · norm_num [calculate_latency_score]
  · norm_num [calculate_latency_score]
    rw [abs_of_pos (by norm_num)]
    norm_num
  · norm_num [calculate_latency_score]

/-- Witness for C5 at concrete latencies. -/
theorem C5_latency_score_witness :
    calculate_latency_score 7 ≤ calculate_latency_score 5 ∧
    calculate_latency_score (1/2) = 100 ∧
    calculate_latency_score 12 = 0 ∧
    calculate_latency_score 5 = 100 * (10 - 5) / 9 ∧
    calculate_latency_score 10 = 0 :=
  ⟨(C5_latency_score 5 7 (by norm_num)).1,
   (C5_latency_score (1/2) 1 (by norm_num)).2.1 (by norm_num),
   (C5_latency_score 12 13 (by norm_num)).2.2.1 (by norm_num),
   (C5_latency_score 5 6 (by norm_num)).2.2.2.1 (by norm_num) (by norm_num),
   (C5_latency_score 0 1 (by norm_num)).2.2.2.2.2.2.2⟩

/-- Claim C6: `aggregate_scores` returns 0 on an empty mapping and the
weighted mean `Σ(score·weight)/Σ(weight)` otherwise, with the default
weight table `{latency: 0.3, cost: 0.2, quality: 0.4,
context_utilization: 0.1}` when no weights are given and weight 0.1 for
a metric absent from the weight mapping (as recorded in
`spec_total_weight` / `spec_weighted_sum`); in particular
`aggregate({a:100, b:0}, {a:1, b:1}) = 50`. -/
theorem C6_aggregate_scores (scores s : List (String × ℚ))
    (weights : Option (List (String × ℚ)))
    (h : 0 < spec_total_weight scores weights) :
    aggregate_scores scores weights =
      spec_weighted_sum scores weights / spec_total_weight scores weights ∧
    aggregate_scores [] weights = 0 ∧
    aggregate_scores s none = aggregate_scores s (some default_weights) ∧
    default_weights =
      [("latency", 3/10), ("cost", 1/5), ("quality", 2/5), ("context_utilization", 1/10)] ∧
    aggregate_scores [("a", 100), ("b", 0)] (some [("a", 1), ("b", 1)]) = 50 := by
  refine ⟨?_, by simp [aggregate_scores], rfl, rfl, ?_⟩
  case refine_2 =>
    have h2 : ([("a", (100:ℚ)), ("b", 0)] : List (String × ℚ)) ≠ [] := by simp
    simp [aggregate_scores, if_neg h2, pyGet]
    norm_num
  have hs : scores ≠ [] := by
    rintro rfl
    simp [spec_total_weight, pySum] at h
  simp only [aggregate_scores, if_neg hs]
  obtain ⟨w, hw⟩ : ∃ w, weights.getD default_weights = w := ⟨_, rfl⟩
  have hww : weights = some w ∨ weights = none ∧ w = default_weights := by
    cases weights with
    | none => exact Or.inr ⟨rfl, hw.symm⟩
    | some u => exact Or.inl (by simp at hw; rw [hw])
  have hspec : spec_total_weight scores (some w) = spec_total_weight scores weights ∧
      spec_weighted_sum scores (some w) = spec_weighted_sum scores weights := by
    rcases hww with h1 | ⟨h1, h2⟩
    · rw [h1]; exact ⟨rfl, rfl⟩
    · subst h1; subst h2
      exact ⟨rfl, rfl⟩
  rw [hw, aggregate_scores_fold, hspec.1, hspec.2]
  simp only [zero_add]
  rw [if_pos h]

/-- Witness for C6 at a concrete scores/weights pair. -/
theorem C6_aggregate_scores_witness :
    aggregate_scores [("x", 80)] none =
      spec_weighted_sum [("x", 80)] none / spec_total_weight [("x", 80)] none ∧
    aggregate_scores [] none = 0 ∧
    aggregate_scores [("q", 5)] none = aggregate_scores [("q", 5)] (some default_weights) ∧
    default_weights =
      [("latency", 3/10), ("cost", 1/5), ("quality", 2/5), ("context_utilization", 1/10)] ∧
    aggregate_scores [("a", 100), ("b", 0)] (some [("a", 1), ("b", 1)]) = 50 :=
  C6_aggregate_scores [("x", 80)] [("q", 5)] none
    (by simp [spec_total_weight, pySum, pyGet, default_weights])

/-- Claim C10: `aggregate_scores` is total; the division is guarded, and
whenever the accumulated total weight is not positive (for example when a
supplied weights mapping assigns 0 to every metric present), the result
is 0 rather than a division error. -/
theorem C10_zero_weight_guard (scores : List (String × ℚ))
    (weights : Option (List (String × ℚ)))
    (h : spec_total_weight scores weights ≤ 0) :
    aggregate_scores scores weights = 0 := by
  by_cases hs : scores = []
  · simp [aggregate_scores, hs]
  · simp only [aggregate_scores, if_neg hs]
    obtain ⟨w, hw⟩ : ∃ w, weights.getD default_weights = w := ⟨_, rfl⟩
    have hspec : spec_total_weight scores (some w) = spec_total_weight scores weights := by
      cases weights with
      | none => simp at hw; subst hw; rfl
      | some u => simp at hw; subst hw; rfl
    rw [hw, aggregate_scores_fold]
    simp only [zero_add]
    rw [if_neg]
    rw [hspec]
    exact not_lt.mpr h

/-- Witness for C10: all-zero supplied weights yield 0, not an error. -/
theorem C10_zero_weight_guard_witness :
    aggregate_scores [("a", 100)] (some [("a", 0)]) = 0 :=
  C10_zero_weight_guard [("a", 100)] (some [("a", 0)])
    (by simp [spec_total_weight, pySum, pyGet])

/-- Claim C4 counterexample: for the empty reference string the source
does NOT take the midpoint with the Jaccard overlap (Python's
`if reference:` is falsy on `""`): on response `"hello"` the source
returns the bare heuristic 50, while the claimed formula yields 25. -/
theorem C4_counterexample :
    calculate_quality_score "hello" (some "") ≠ quality_score_spec "hello" "" ∧
    calculate_quality_score "hello" (some "") = 50 ∧
    quality_score_spec "hello" "" = 25 := by
  have h1 : (pyWords "hello").length = 1 := rfl
  have h2 : (pySplitOnChar "hello" '.').length = 1 := rfl
  have h3 : endsWithChar (pyStrip "hello") '.' = false := rfl
  have h3a : endsWithChar (pyStrip "hello") '!' = false := rfl
  have h3b : endsWithChar (pyStrip "hello") '?' = false := rfl
  have h4 : containsSub "hello" "I apologize" = false := rfl
  have h5 : containsSub "hello" "I cannot" = false := rfl
  have hne : ("hello" : String) ≠ "" := by simp
  have hcode : calculate_quality_score "hello" (some "") = 50 := by
    simp only [calculate_quality_score, if_neg hne, h1, h2, h3, h3a, h3b, h4, h5]
    norm_num
  have hnone : calculate_quality_score "hello" none = 50 := by
    simp only [calculate_quality_score, if_neg hne, h1, h2, h3, h3a, h3b, h4, h5]
    norm_num
  have hsim : calculate_text_similarity "hello" "" = 0 := by
    simp [calculate_text_similarity, wordSet, pyWords, pyLower, wordsAux]
  have hspec : quality_score_spec "hello" "" = 25 := by
    simp only [quality_score_spec, if_neg hne, hnone, hsim]
    norm_num [min_def, max_def]
  refine ⟨?_, hcode, hspec⟩
  rw [hcode, hspec]
  norm_num

/-- Claim C4 amended: the quality score is the clamped midpoint between
the heuristic score and `100 ×` Jaccard word overlap only when the
supplied reference is NON-empty; an empty supplied reference behaves
exactly like no reference (bare heuristic); an empty response scores 0
unconditionally. -/
theorem C4_quality_score (response ref : String) (h : response ≠ "") (h2 : ref ≠ "") :
    calculate_quality_score response (some ref) =
      min 100 (max 0 ((calculate_quality_score response none +
        calculate_text_similarity response ref * 100) / 2)) ∧
    calculate_quality_score response (some "") = calculate_quality_score response none ∧
    calculate_quality_score "" (some ref) = 0 ∧
    calculate_quality_score "" none = 0 := by
  refine ⟨?_, ?_, by simp [calculate_quality_score], by simp [calculate_quality_score]⟩
  · simp only [calculate_quality_score, if_neg h, if_neg h2]
    split_ifs <;> norm_num [min_def, max_def]
  · simp only [calculate_quality_score, if_neg h]
    norm_num

/-- Witness for C4 at a concrete response/reference pair. -/
theorem C4_quality_score_witness :
    calculate_quality_score "Hi there." (some "greetings") =
      min 100 (max 0 ((calculate_quality_score "Hi there." none +
        calculate_text_similarity "Hi there." "greetings" * 100) / 2)) ∧
    calculate_quality_score "Hi there." (some "") = calculate_quality_score "Hi there." none ∧
    calculate_quality_score "" (some "greetings") = 0 ∧
    calculate_quality_score "" none = 0 :=
  C4_quality_score "Hi there." "greetings" (by simp) (by simp)

/-- Claim C9 (code bug): `update_rankings` ingests nothing — `get_rankings`
returns a hardcoded mock table whose output is invariant under any
`update_rankings` call and lists the same fixed five models for every
ingested run, so an updated run is never reflected. -/
theorem C9_leaderboard_ignores_updates (lb : Leaderboard) (r : BenchmarkRun)
    (now now2 : ℚ) (metric : String) :
    (get_rankings (update_rankings lb r now) metric now2).rankings =
      (get_rankings lb metric now2).rankings ∧
    (get_rankings (update_rankings lb r now) "overall" now2).rankings.map
        (fun q => q.model_id) =
      ["openai_gpt-4", "anthropic_claude-3-opus-20240229",
       "anthropic_claude-3-sonnet-20240229", "openai_gpt-3.5-turbo",
       "anthropic_claude-3-haiku-20240307"] :=
  ⟨rfl, rfl⟩

/-- Claim C1 counterexample: a failed generation's `PromptResult` does
NOT have an empty metrics mapping — the source computes every requested
metric from the failure record's defaults (here `latency`). -/
theorem C1_counterexample :
    (evaluate_single_prompt failConnector.generate "p" ["latency"]
        failConnector.info).success = false ∧
    (evaluate_single_prompt failConnector.generate "p" ["latency"]
        failConnector.info).metrics.map Prod.fst = ["latency"] :=
  ⟨rfl, rfl⟩

/-- Claim C1 amended: a failed generation still produces a
`PromptResult`, whose metrics mapping contains an entry for every
requested supported metric (computed from the failure record) rather
than being empty; the evaluation is nonetheless excluded from
aggregation: an aggregated metric's `count` equals the number of
succeeded prompt evaluations carrying it (for a requested metric in a
model run, simply the number of succeeded evaluations), and a metric
with zero such evaluations is omitted from the aggregated entries
entirely. -/
theorem C1_failure_aggregation (gen : String → ResponseData) (prompt : String)
    (prompts : List String) (metricsReq : List String) (mi : ModelInfo)
    (c : Connector) (mid metric : String) (rs : List PromptResult) (e : AggEntry) :
    (evaluate_single_prompt gen prompt metricsReq mi).success = (gen prompt).success ∧
    (evaluate_single_prompt gen prompt metricsReq mi).metrics.map Prod.fst
      = ["latency", "cost", "quality", "context_utilization"].filter (· ∈ metricsReq) ∧
    (pyGet metric (aggregate_prompt_results rs metricsReq).entries = some e →
      e.count = (rs.filter (fun r => r.success && (pyGet metric r.metrics).isSome)).length ∧
      0 < e.count) ∧
    ((rs.filter (fun r => r.success && (pyGet metric r.metrics).isSome)).length = 0 →
      pyGet metric (aggregate_prompt_results rs metricsReq).entries = none) ∧
    (metric ∈ metricsReq →
      pyGet metric (run_model_benchmark c prompts metricsReq mid).aggregated_metrics.entries
        = some e →
      e.count = ((run_model_benchmark c prompts metricsReq mid).prompt_results.filter
        (fun r => r.success)).length) := by
  refine ⟨rfl, eval_metrics_keys gen prompt metricsReq mi, agg_count_eq rs metricsReq metric e,
    ?_, ?_⟩
  · intro h0
    have hscores : ((agg_datas rs metric).map (fun d => d.score)) = [] := by
      rw [← List.length_eq_zero]
      rw [List.length_map, agg_datas, length_filterMap_eq_length_filter, agg_filter_eq]
      exact h0
    have hnone : agg_entry_for rs metric = none := by
      simp only [agg_entry_for]
      rw [if_pos hscores]
    rw [aggregate_entries_lookup, if_neg]
    rintro ⟨-, hsome⟩
    rw [hnone] at hsome
    cases hsome
  · intro hm h
    have hagg : (run_model_benchmark c prompts metricsReq mid).aggregated_metrics
        = aggregate_prompt_results
            ((run_model_benchmark c prompts metricsReq mid).prompt_results) metricsReq := rfl
    rw [hagg] at h
    obtain ⟨hcount, hpos⟩ := agg_count_eq _ metricsReq metric e h
    by_cases hsup : metric ∈ (["latency", "cost", "quality", "context_utilization"] : List String)
    · have hkeys : ∀ r ∈ (run_model_benchmark c prompts metricsReq mid).prompt_results,
          (pyGet metric r.metrics).isSome = true := by
        intro r hr
        obtain ⟨p, -, hp⟩ := List.mem_map.mp hr
        have hrm : r.metrics
            = (evaluate_single_prompt c.generate p.2 metricsReq c.info).metrics := by
          rw [← hp]
        rw [hrm, pyGet_isSome_iff, eval_metrics_keys]
        simp [List.mem_filter, hsup, hm]
      rw [hcount]
      congr 1
      apply List.filter_congr
      intro r hr
      rw [hkeys r hr, Bool.and_true]
    · have hkeys : ∀ r ∈ (run_model_benchmark c prompts metricsReq mid).prompt_results,
          (pyGet metric r.metrics).isSome = false := by
        intro r hr
        obtain ⟨p, -, hp⟩ := List.mem_map.mp hr
        have hrm : r.metrics
            = (evaluate_single_prompt c.generate p.2 metricsReq c.info).metrics := by
          rw [← hp]
        rw [hrm]
        rw [Bool.eq_false_iff]
        intro hsome
        rw [pyGet_isSome_iff, eval_metrics_keys] at hsome
        rw [List.mem_filter] at hsome
        exact hsup hsome.1
      exfalso
      have hnil : (run_model_benchmark c prompts metricsReq mid).prompt_results.filter
          (fun r => r.success && (pyGet metric r.metrics).isSome) = [] := by
        rw [List.filter_eq_nil_iff]
        intro r hr
        rw [hkeys r hr, Bool.and_false]
        simp
      rw [hcount, hnil] at hpos
      simp at hpos

/-- Witness for C1 at a concrete failed-then-succeeded run. -/
theorem C1_failure_aggregation_witness :
    (evaluate_single_prompt failConnector.generate "q" ["latency"]
        failConnector.info).success = (failConnector.generate "q").success ∧
    (evaluate_single_prompt failConnector.generate "q" ["latency"]
        failConnector.info).metrics.map Prod.fst
      = ["latency", "cost", "quality", "context_utilization"].filter
          (· ∈ (["latency"] : List String)) ∧
    (pyGet "latency" (aggregate_prompt_results [] ["latency"]).entries = some ({ average_score := 0, min_score := 0, max_score := 0, count := 0 } : AggEntry) →
      ({ average_score := 0, min_score := 0, max_score := 0, count := 0 } : AggEntry).count = (List.filter
        (fun (r : PromptResult) => r.success && (pyGet "latency" r.metrics).isSome) []).length ∧
      0 < ({ average_score := 0, min_score := 0, max_score := 0, count := 0 } : AggEntry).count) ∧
    ((List.filter (fun (r : PromptResult) =>
        r.success && (pyGet "latency" r.metrics).isSome) []).length = 0 →
      pyGet "latency" (aggregate_prompt_results [] ["latency"]).entries = none) ∧
    ("latency" ∈ (["latency"] : List String) →
      pyGet "latency" (run_model_benchmark failConnector ["q"] ["latency"]
        "b").aggregated_metrics.entries = some ({ average_score := 0, min_score := 0, max_score := 0, count := 0 } : AggEntry) →
      ({ average_score := 0, min_score := 0, max_score := 0, count := 0 } : AggEntry).count
        = ((run_model_benchmark failConnector ["q"] ["latency"] "b").prompt_results.filter
            (fun r => r.success)).length) :=
  C1_failure_aggregation failConnector.generate "q" ["q"] ["latency"]
    failConnector.info failConnector "b" "latency" []
    { average_score := 0, min_score := 0, max_score := 0, count := 0 }

/-- Claim C7 counterexample: an empty prompt list does NOT yield an empty
results mapping — each resolvable model still gets a results entry (with
empty prompt results). -/
theorem C7_counterexample :
    (run_benchmark stubRegistry [] ["a"] none).results.map Prod.fst = ["a"] ∧
    (run_benchmark stubRegistry [] ["a"] none).results ≠ [] := by
  have h1 : (run_benchmark stubRegistry [] ["a"] none).results.map Prod.fst = ["a"] := rfl
  refine ⟨h1, ?_⟩
  intro h0
  rw [h0] at h1
  cases h1

/-- Claim C7 amended: `run_benchmark` always returns a complete run: a
model id appears in results exactly when it was requested and its
connector resolves (so an unresolvable model is skipped silently and the
smaller results mapping is the sole signal); an unresolvable model is
absent from every ranking; an empty model list yields empty results and
no rankings; an empty prompt list yields a run whose entries all carry
empty prompt results and empty aggregated metrics. -/
theorem C7_run_benchmark (g : String → Option Connector) (prompts mids : List String)
    (metrics : Option (List String)) (mid metric : String) (rk : List RankEntry)
    (p : String × ModelResult) :
    (mid ∈ (run_benchmark g prompts mids metrics).results.map Prod.fst
      ↔ mid ∈ mids ∧ (g mid).isSome) ∧
    ((g mid).isSome = false →
      pyGet metric (run_benchmark g prompts mids metrics).summary.rankings = some rk →
      mid ∉ rk.map (fun e => e.model_id)) ∧
    (run_benchmark g prompts [] metrics).results = [] ∧
    pyGet metric (run_benchmark g prompts [] metrics).summary.rankings = none ∧
    (p ∈ (run_benchmark g [] mids metrics).results →
      p.2.prompt_results = [] ∧ p.2.aggregated_metrics.entries = [] ∧
      p.2.aggregated_metrics.overall_score = none) := by
  refine ⟨?_, ?_, rfl, rfl, ?_⟩
  · rw [run_benchmark_results]
    exact results_keys_mem g prompts _ mids mid
  · intro hg h hmem
    rw [run_benchmark_summary] at h
    have hperm := summary_ranking_ids_perm _ _ metric rk h
    have hmem2 : mid ∈ (run_benchmark g prompts mids metrics).results.map Prod.fst :=
      hperm.mem_iff.mp hmem
    rw [run_benchmark_results, results_keys_mem g prompts _ mids mid] at hmem2
    rw [hmem2.2] at hg
    cases hg
  · intro hp
    rw [run_benchmark_results] at hp
    rcases mem_results_model g [] _ mids [] p hp with h | h
    · cases h
    · rw [model_value] at h
      cases hgc : g p.1 with
      | none =>
        rw [hgc] at h
        cases h
      | some c =>
        rw [hgc] at h
        have hval : run_model_benchmark c []
            (metrics.getD ["latency", "cost", "quality"]) p.1 = p.2 := Option.some.inj h
        have hpr : p.2.prompt_results = [] := by
          rw [← hval]
          rfl
        have hagg : p.2.aggregated_metrics
            = aggregate_prompt_results [] (metrics.getD ["latency", "cost", "quality"]) := by
          rw [← hval]
          rfl
        have hent : p.2.aggregated_metrics.entries = [] := by
          rw [hagg, aggregate_entries_eq_model, agg_entries_model_nil]
        refine ⟨hpr, hent, ?_⟩
        rw [hagg, aggregate_overall_eq, if_pos]
        rw [← hagg]
        exact hent

/-- Witness for C7 at a concrete registry and inputs. -/
theorem C7_run_benchmark_witness :
    ("a" ∈ (run_benchmark stubRegistry ["p"] ["a", "z"] none).results.map Prod.fst
      ↔ "a" ∈ (["a", "z"] : List String) ∧ (stubRegistry "a").isSome) ∧
    ((stubRegistry "a").isSome = false →
      pyGet "latency" (run_benchmark stubRegistry ["p"] ["a", "z"] none).summary.rankings
        = some [] →
      "a" ∉ (([] : List RankEntry)).map (fun e => e.model_id)) ∧
    (run_benchmark stubRegistry ["p"] [] none).results = [] ∧
    pyGet "latency" (run_benchmark stubRegistry ["p"] [] none).summary.rankings = none ∧
    (("a", run_model_benchmark okConnector [] ["latency", "cost", "quality"] "a")
        ∈ (run_benchmark stubRegistry [] ["a", "z"] none).results →
      (run_model_benchmark okConnector [] ["latency", "cost", "quality"] "a").prompt_results
          = [] ∧
      (run_model_benchmark okConnector [] ["latency", "cost", "quality"]
        "a").aggregated_metrics.entries = [] ∧
      (run_model_benchmark okConnector [] ["latency", "cost", "quality"]
        "a").aggregated_metrics.overall_score = none) :=
  C7_run_benchmark stubRegistry ["p"] ["a", "z"] none "a" "latency" []
    ("a", run_model_benchmark okConnector [] ["latency", "cost", "quality"] "a")

/-- Claim C2 counterexample: in a two-model run where model `"b"`'s
generations always fail, `rankings.overall` contains TWO entries, not
one — the failed model is listed with score 0 even though its
aggregated metrics are empty. -/
theorem C2_counterexample :
    ((pyGet "overall" (run_benchmark stubRegistry ["p", "q"] ["a", "b"]
        (some ["latency"])).summary.rankings).getD []).length = 2 ∧
    RankEntry.mk "b" 0 ∈
      ((pyGet "overall" (run_benchmark stubRegistry ["p", "q"] ["a", "b"]
        (some ["latency"])).summary.rankings).getD []) ∧
    (run_model_benchmark failConnector ["p", "q"] ["latency"] "b").aggregated_metrics.entries
      = [] := by
  have hres : (run_benchmark stubRegistry ["p", "q"] ["a", "b"] (some ["latency"])).results
      = [("a", run_model_benchmark okConnector ["p", "q"] ["latency"] "a"),
         ("b", run_model_benchmark failConnector ["p", "q"] ["latency"] "b")] := rfl
  have hlookup := summary_overall_lookup
    [("a", run_model_benchmark okConnector ["p", "q"] ["latency"] "a"),
     ("b", run_model_benchmark failConnector ["p", "q"] ["latency"] "b")]
    ["latency"] (by simp) (by simp)
  have hsum : (run_benchmark stubRegistry ["p", "q"] ["a", "b"]
      (some ["latency"])).summary.rankings
      = (calculate_summary
          [("a", run_model_benchmark okConnector ["p", "q"] ["latency"] "a"),
           ("b", run_model_benchmark failConnector ["p", "q"] ["latency"] "b")]
          ["latency"]).rankings := by
    rw [run_benchmark_summary, hres]
    rfl
  have hovb : (run_model_benchmark failConnector ["p", "q"] ["latency"]
      "b").aggregated_metrics.overall_score = none := rfl
  refine ⟨?_, ?_, rfl⟩
  · rw [hsum, hlookup, Option.getD_some, overall_entries_for, List.length_map,
      pyDescSort_length, List.length_map]
    rfl
  · rw [hsum, hlookup, Option.getD_some, overall_entries_for]
    apply List.mem_map.mpr
    refine ⟨("b", (run_model_benchmark failConnector ["p", "q"] ["latency"]
      "b").aggregated_metrics), ?_, ?_⟩
    · apply (pyDescSort_perm _ _).mem_iff.mpr
      simp
    · rw [show (("b", (run_model_benchmark failConnector ["p", "q"] ["latency"]
        "b").aggregated_metrics) : String × AggregatedMetrics).2.overall_score
        = none from hovb]
      rfl

/-- Claim C2 amended: `rankings.overall` contains an entry for EVERY
model present in results — a model with empty aggregated metrics is
listed with score 0 (via `overall_score` defaulting to 0), not
excluded; entries are in bijection with the results' model ids. -/
theorem C2_overall_ranking (results : List (String × ModelResult)) (ms : List String)
    (q : String × ModelResult) (hres : results ≠ []) (hov : "overall" ∉ ms)
    (hq : q ∈ results) :
    (pyGet "overall" (calculate_summary results ms).rankings).isSome ∧
    List.Perm (((pyGet "overall" (calculate_summary results ms).rankings).getD []).map
      (fun e => e.model_id)) (results.map Prod.fst) ∧
    RankEntry.mk q.1 (q.2.aggregated_metrics.overall_score.getD 0)
      ∈ ((pyGet "overall" (calculate_summary results ms).rankings).getD []) := by
  have hres2 : ¬ results.map (fun p => (p.1, p.2.aggregated_metrics)) = [] := by
    simp [hres]
  have hl := summary_overall_lookup results ms hres2 hov
  rw [hl]
  have hkeys : (results.map (fun p => (p.1, p.2.aggregated_metrics))).map Prod.fst
      = results.map Prod.fst := by
    rw [List.map_map]
    rfl
  refine ⟨rfl, ?_, ?_⟩
  · simp only [Option.getD_some]
    rw [← hkeys]
    exact overall_entries_ids_perm _
  · simp only [Option.getD_some]
    rw [overall_entries_for]
    apply List.mem_map.mpr
    refine ⟨(q.1, q.2.aggregated_metrics), ?_, rfl⟩
    apply (pyDescSort_perm _ _).mem_iff.mpr
    exact List.mem_map.mpr ⟨q, hq, rfl⟩

/-- Witness for C2 at a concrete one-model summary. -/
theorem C2_overall_ranking_witness :
    (pyGet "overall" (calculate_summary
      [("a", run_model_benchmark okConnector ["p"] ["latency"] "a")]
      ["latency"]).rankings).isSome ∧
    List.Perm (((pyGet "overall" (calculate_summary
        [("a", run_model_benchmark okConnector ["p"] ["latency"] "a")]
        ["latency"]).rankings).getD []).map (fun e => e.model_id))
      ([("a", run_model_benchmark okConnector ["p"] ["latency"] "a")].map Prod.fst) ∧
    RankEntry.mk ("a", run_model_benchmark okConnector ["p"] ["latency"] "a").1
        (("a", run_model_benchmark okConnector ["p"] ["latency"]
          "a").2.aggregated_metrics.overall_score.getD 0)
      ∈ ((pyGet "overall" (calculate_summary
          [("a", run_model_benchmark okConnector ["p"] ["latency"] "a")]
          ["latency"]).rankings).getD []) :=
  C2_overall_ranking [("a", run_model_benchmark okConnector ["p"] ["latency"] "a")]
    ["latency"] ("a", run_model_benchmark okConnector ["p"] ["latency"] "a")
    (by simp) (by simp) (by simp)

/-- Claim C3: for a requested metric, the per-metric ranking lists every
model present in results (a model lacking that metric's aggregate
contributes score 0), sorted descending by that metric's average score;
and the best performer for the metric is the head of that ranking
whenever it is nonempty. -/
theorem C3_metric_rankings (results : List (String × ModelResult)) (ms : List String)
    (metric : String) (q : String × ModelResult) (e : RankEntry) (rest : List RankEntry)
    (hm : metric ∈ ms) :
    List.Perm (((pyGet metric (calculate_summary results ms).rankings).getD []).map
      (fun a => a.model_id)) (results.map Prod.fst) ∧
    ((pyGet metric (calculate_summary results ms).rankings).getD []).Sorted
      (fun a b => b.score ≤ a.score) ∧
    (q ∈ results →
      RankEntry.mk q.1 (((pyGet metric q.2.aggregated_metrics.entries).map
        (fun a => a.average_score)).getD 0)
        ∈ ((pyGet metric (calculate_summary results ms).rankings).getD [])) ∧
    (((pyGet metric (calculate_summary results ms).rankings).getD []) = e :: rest →
      pyGet metric (calculate_summary results ms).best_performers = some e.model_id) := by
  by_cases hres : results = []
  · subst hres
    have h0 : pyGet metric
        (calculate_summary ([] : List (String × ModelResult)) ms).rankings = none := rfl
    refine ⟨by rw [h0]; exact List.Perm.refl _, by rw [h0]; exact List.sorted_nil, ?_, ?_⟩
    · intro hq
      exact absurd hq (List.not_mem_nil q)
    · intro hcons
      rw [h0] at hcons
      cases hcons
  · have hres2 : ¬ results.map (fun p => (p.1, p.2.aggregated_metrics)) = [] := by
      simp [hres]
    have hl := summary_rankings_lookup results ms metric hres2 hm
    have hkeys : (results.map (fun p => (p.1, p.2.aggregated_metrics))).map Prod.fst
        = results.map Prod.fst := by
      rw [List.map_map]
      rfl
    refine ⟨?_, ?_, ?_, ?_⟩
    · rw [hl]
      simp only [Option.getD_some]
      rw [rank_entries_ids, ← hkeys]
      exact metric_pairs_ids_perm _ metric
    · rw [hl]
      simp only [Option.getD_some]
      rw [rank_entries_for]
      exact List.Pairwise.map _ (fun a b h => h) (pyDescSort_sorted _ _)
    · intro hq
      rw [hl]
      simp only [Option.getD_some]
      rw [rank_entries_for]
      apply List.mem_map.mpr
      refine ⟨(q.1, ((pyGet metric q.2.aggregated_metrics.entries).map
        (fun a => a.average_score)).getD 0), ?_, rfl⟩
      apply (pyDescSort_perm _ _).mem_iff.mpr
      apply List.mem_map.mpr
      exact ⟨(q.1, q.2.aggregated_metrics), List.mem_map.mpr ⟨q, hq, rfl⟩, rfl⟩
    · intro hcons
      rw [hl] at hcons
      simp only [Option.getD_some] at hcons
      have hb := summary_best_lookup results ms metric hres2 hm
      cases hmrp : metric_ranking_pairs
          (results.map (fun p => (p.1, p.2.aggregated_metrics))) metric with
      | nil =>
        rw [rank_entries_for, hmrp] at hcons
        cases hcons
      | cons q0 t =>
        rw [rank_entries_for, hmrp] at hcons
        simp only [List.map_cons] at hcons
        injection hcons with h1 h2
        rw [hb, best_for, hmrp, ← h1]

/-- Witness for C3 at a concrete one-model summary. -/
theorem C3_metric_rankings_witness :
    List.Perm (((pyGet "latency" (calculate_summary
        [("a", run_model_benchmark okConnector ["p"] ["latency"] "a")]
        ["latency"]).rankings).getD []).map (fun a => a.model_id))
      ([("a", run_model_benchmark okConnector ["p"] ["latency"] "a")].map Prod.fst) ∧
    ((pyGet "latency" (calculate_summary
        [("a", run_model_benchmark okConnector ["p"] ["latency"] "a")]
        ["latency"]).rankings).getD []).Sorted (fun a b => b.score ≤ a.score) ∧
    (("a", run_model_benchmark okConnector ["p"] ["latency"] "a")
        ∈ [("a", run_model_benchmark okConnector ["p"] ["latency"] "a")] →
      RankEntry.mk ("a", run_model_benchmark okConnector ["p"] ["latency"] "a").1
        (((pyGet "latency" ("a", run_model_benchmark okConnector ["p"] ["latency"]
            "a").2.aggregated_metrics.entries).map (fun a => a.average_score)).getD 0)
        ∈ ((pyGet "latency" (calculate_summary
            [("a", run_model_benchmark okConnector ["p"] ["latency"] "a")]
            ["latency"]).rankings).getD [])) ∧
    (((pyGet "latency" (calculate_summary
        [("a", run_model_benchmark okConnector ["p"] ["latency"] "a")]
        ["latency"]).rankings).getD []) = RankEntry.mk "a" 100 :: [] →
      pyGet "latency" (calculate_summary
        [("a", run_model_benchmark okConnector ["p"] ["latency"] "a")]
        ["latency"]).best_performers = some (RankEntry.mk "a" 100).model_id) :=
  C3_metric_rankings [("a", run_model_benchmark okConnector ["p"] ["latency"] "a")]
    ["latency"] "latency" ("a", run_model_benchmark okConnector ["p"] ["latency"] "a")
    (RankEntry.mk "a" 100) [] (by simp)

theorem keys_dictInsert (k : String) (v : α) (l : List (String × α)) :
    (dictInsert k v l).map Prod.fst
      = if k ∈ l.map Prod.fst then l.map Prod.fst else l.map Prod.fst ++ [k] := by
  induction l with
  | nil => simp [dictInsert]
  | cons p rest ih =>
    by_cases hp : p.1 = k
    · simp [dictInsert, hp]
    · by_cases hk : k ∈ rest.map Prod.fst
      · simp [dictInsert, hp, ih, hk]
      · simp [dictInsert, hp, ih, hk, Ne.symm hp]

theorem nodup_keys_dictInsert (k : String) (v : α) (l : List (String × α))
    (h : (l.map Prod.fst).Nodup) : ((dictInsert k v l).map Prod.fst).Nodup := by
  rw [keys_dictInsert]
  split_ifs with hk
  · exact h
  · rw [List.nodup_append]
    refine ⟨h, List.nodup_singleton k, ?_⟩
    intro x hx hxk
    rw [List.mem_singleton] at hxk
    subst hxk
    exact hk hx

theorem results_fold_keys_nodup (g : String → Option Connector) (prompts ms : List String) :
    ∀ (mids : List String) (acc : List (String × ModelResult)),
      ((acc.map Prod.fst).Nodup) →
      (((mids.foldl (fun acc mid => (model_value g prompts ms mid).elim acc
        (fun v => dictInsert mid v acc)) acc).map Prod.fst)).Nodup := by
  intro mids
  induction mids with
  | nil => intro acc h; exact h
  | cons m rest ih =>
    intro acc h
    rw [List.foldl_cons]
    apply ih
    cases hm : model_value g prompts ms m with
    | none => exact h
    | some v => exact nodup_keys_dictInsert m v acc h

theorem pyGet_of_mem_nodup (l : List (String × α)) (k : String) (v : α)
    (hmem : (k, v) ∈ l) (hnd : (l.map Prod.fst).Nodup) : pyGet k l = some v := by
  induction l with
  | nil => cases hmem
  | cons p rest ih =>
    rcases List.mem_cons.mp hmem with h | h
    · rw [pyGet, if_pos (by rw [← h]), ← h]
    · by_cases hpk : p.1 = k
      · exfalso
        have hk : k ∈ rest.map Prod.fst := List.mem_map.mpr ⟨(k, v), h, rfl⟩
        rw [List.map_cons, List.nodup_cons] at hnd
        exact hnd.1 (hpk ▸ hk)
      · rw [pyGet, if_neg hpk]
        exact ih h (by rw [List.map_cons, List.nodup_cons] at hnd; exact hnd.2)

theorem results_fold_keys_sublist (g : String → Option Connector) (prompts ms : List String) :
    ∀ (mids : List String) (acc : List (String × ModelResult)) (c : List String),
      List.Sublist c (acc.map Prod.fst) →
      List.Sublist c ((mids.foldl (fun acc mid => (model_value g prompts ms mid).elim acc
        (fun v => dictInsert mid v acc)) acc).map Prod.fst) := by
  intro mids
  induction mids with
  | nil => intro acc c hc; exact hc
  | cons m rest ih =>
    intro acc c hc
    rw [List.foldl_cons]
    apply ih
    cases hm : model_value g prompts ms m with
    | none => exact hc
    | some v =>
      simp only [Option.elim_some]
      rw [keys_dictInsert]
      split_ifs with hk
      · exact hc
      · exact hc.trans (List.sublist_append_left _ _)

theorem results_fold_pair_keys_aux (g : String → Option Connector) (prompts ms : List String)
    (a b : String) (hgb : (g b).isSome) :
    ∀ (mids : List String) (acc : List (String × ModelResult)),
      a ∈ acc.map Prod.fst → b ∉ acc.map Prod.fst → b ∈ mids →
      List.Sublist [a, b]
        ((mids.foldl (fun acc mid => (model_value g prompts ms mid).elim acc
          (fun v => dictInsert mid v acc)) acc).map Prod.fst) := by
  intro mids
  induction mids with
  | nil => intro acc _ _ hbm; cases hbm
  | cons m rest ih =>
    intro acc ha hb hbm
    rw [List.foldl_cons]
    by_cases hmb : m = b
    · subst hmb
      cases hm : model_value g prompts ms m with
      | none =>
        exfalso
        have := model_value_isSome g prompts ms m
        rw [hm] at this
        rw [← this] at hgb
        cases hgb
      | some v =>
        simp only [Option.elim_some]
        apply results_fold_keys_sublist
        rw [keys_dictInsert, if_neg hb]
        have hasub : List.Sublist [a] (acc.map Prod.fst) :=
          (List.singleton_sublist).mpr ha
        have := List.Sublist.append hasub (List.Sublist.refl [m])
        exact this
    · have hbrest : b ∈ rest := by
        rcases List.mem_cons.mp hbm with h | h
        · exact absurd h.symm hmb
        · exact h
      cases hm : model_value g prompts ms m with
      | none => exact ih acc ha hb hbrest
      | some v =>
        simp only [Option.elim_some]
        apply ih
        · rw [keys_dictInsert]
          split_ifs with hk
          · exact ha
          · exact List.mem_append_left _ ha
        · rw [keys_dictInsert]
          split_ifs with hk
          · exact hb
          · intro hmem
            rcases List.mem_append.mp hmem with h | h
            · exact hb h
            · rw [List.mem_singleton] at h
              exact hmb h.symm
        · exact hbrest

theorem results_fold_pair_keys (g : String → Option Connector) (prompts ms : List String)
    (a b : String) (hab : a ≠ b) (hga : (g a).isSome) (hgb : (g b).isSome) :
    ∀ (mids : List String) (acc : List (String × ModelResult)),
      b ∉ acc.map Prod.fst → a ∈ mids → b ∈ mids →
      List.indexOf a mids < List.indexOf b mids →
      List.Sublist [a, b]
        ((mids.foldl (fun acc mid => (model_value g prompts ms mid).elim acc
          (fun v => dictInsert mid v acc)) acc).map Prod.fst) := by
  intro mids
  induction mids with
  | nil => intro acc _ ham; cases ham
  | cons m rest ih =>
    intro acc hb ham hbm hidx
    by_cases hma : m = a
    · subst hma
      rw [List.foldl_cons]
      cases hm : model_value g prompts ms m with
      | none =>
        exfalso
        have := model_value_isSome g prompts ms m
        rw [hm] at this
        rw [← this] at hga
        cases hga
      | some v =>
        simp only [Option.elim_some]
        apply results_fold_pair_keys_aux g prompts ms m b hgb
        · rw [keys_dictInsert]
          split_ifs with hk
          · exact hk
          · exact List.mem_append_right _ (List.mem_singleton.mpr rfl)
        · rw [keys_dictInsert]
          split_ifs with hk
          · exact hb
          · intro hmem
            rcases List.mem_append.mp hmem with h | h
            · exact hb h
            · rw [List.mem_singleton] at h
              exact hab (h ▸ rfl)
        · rcases List.mem_cons.mp hbm with h | h
          · exact absurd h.symm (fun hh => hab hh)
          · exact h
    · by_cases hmb : m = b
      · exfalso
        subst hmb
        rw [List.indexOf_cons_self] at hidx
        exact Nat.not_lt_zero _ hidx
      · have harest : a ∈ rest := by
          rcases List.mem_cons.mp ham with h | h
          · exact absurd h.symm hma
          · exact h
        have hbrest : b ∈ rest := by
          rcases List.mem_cons.mp hbm with h | h
          · exact absurd h.symm hmb
          · exact h
        have hidx2 : List.indexOf a rest < List.indexOf b rest := by
          rw [List.indexOf_cons_ne rest (fun hh => hma hh),
            List.indexOf_cons_ne rest (fun hh => hmb hh)] at hidx
          exact Nat.lt_of_succ_lt_succ hidx
        rw [List.foldl_cons]
        cases hm : model_value g prompts ms m with
        | none => exact ih acc hb harest hbrest hidx2
        | some v =>
          simp only [Option.elim_some]
          apply ih
          · rw [keys_dictInsert]
            split_ifs with hk
            · exact hb
            · intro hmem
              rcases List.mem_append.mp hmem with h | h
              · exact hb h
              · rw [List.mem_singleton] at h
                exact hmb h.symm
          · exact harest
          · exact hbrest
          · exact hidx2

/-- Claim C8: `run_benchmark` is a pure function of its inputs, so two
calls with identical prompts, model ids, metrics and connector registry
produce identical rankings; and every ranking of the summary sorts
stably with ties broken by the order a model first appears in the input
`model_ids`: if `a` precedes `b` in `model_ids` and both resolve, then
whenever `b`'s overall score does not exceed `a`'s (in particular on a
tie), `a`'s entry precedes `b`'s in `rankings.overall`, and for every
requested metric, whenever `b`'s average score for it does not exceed
`a`'s, `a`'s entry precedes `b`'s in that metric's ranking. -/
theorem C8_stable_tie_break (g : String → Option Connector) (prompts mids : List String)
    (metrics : Option (List String)) (a b metric : String)
    (hab : a ≠ b) (ha : (g a).isSome) (hb : (g b).isSome)
    (hma : a ∈ mids) (hmb : b ∈ mids)
    (hidx : List.indexOf a mids < List.indexOf b mids)
    (htie : stored_overall g prompts (metrics.getD ["latency", "cost", "quality"]) b
      ≤ stored_overall g prompts (metrics.getD ["latency", "cost", "quality"]) a)
    (hov : "overall" ∉ metrics.getD ["latency", "cost", "quality"]) :
    run_benchmark g prompts mids metrics = run_benchmark g prompts mids metrics ∧
    List.Sublist
      [RankEntry.mk a
        (stored_overall g prompts (metrics.getD ["latency", "cost", "quality"]) a),
       RankEntry.mk b
        (stored_overall g prompts (metrics.getD ["latency", "cost", "quality"]) b)]
      ((pyGet "overall"
        (run_benchmark g prompts mids metrics).summary.rankings).getD []) ∧
    (metric ∈ metrics.getD ["latency", "cost", "quality"] →
      stored_metric_score g prompts (metrics.getD ["latency", "cost", "quality"]) metric b
        ≤ stored_metric_score g prompts (metrics.getD ["latency", "cost", "quality"])
            metric a →
      List.Sublist
        [RankEntry.mk a
          (stored_metric_score g prompts (metrics.getD ["latency", "cost", "quality"])
            metric a),
         RankEntry.mk b
          (stored_metric_score g prompts (metrics.getD ["latency", "cost", "quality"])
            metric b)]
        ((pyGet metric
          (run_benchmark g prompts mids metrics).summary.rankings).getD [])) := by
  have hkeyspair : List.Sublist [a, b]
      ((results_model g prompts (metrics.getD ["latency", "cost", "quality"]) mids).map
        Prod.fst) := by
    rw [results_model]
    exact results_fold_pair_keys g prompts _ a b hab ha hb mids [] (by simp) hma hmb hidx
  obtain ⟨l', hl'sub, hl'map⟩ := List.sublist_map_iff.mp hkeyspair
  rcases l' with _ | ⟨pa, _ | ⟨pb, _ | ⟨px, tl⟩⟩⟩
  · simp at hl'map
  · simp at hl'map
  case _ =>
    simp only [List.map_cons, List.cons.injEq] at hl'map
    obtain ⟨ha1, hb1, -⟩ := hl'map
    subst ha1
    subst hb1
    have hnd : (((results_model g prompts
        (metrics.getD ["latency", "cost", "quality"]) mids)).map Prod.fst).Nodup :=
      results_fold_keys_nodup g prompts _ mids [] (by simp)
    have hpa_mem : pa ∈ results_model g prompts
        (metrics.getD ["latency", "cost", "quality"]) mids :=
      hl'sub.subset (by simp)
    have hpb_mem : pb ∈ results_model g prompts
        (metrics.getD ["latency", "cost", "quality"]) mids :=
      hl'sub.subset (by simp)
    have hga_val := pyGet_of_mem_nodup _ pa.1 pa.2 hpa_mem hnd
    have hgb_val := pyGet_of_mem_nodup _ pb.1 pb.2 hpb_mem hnd
    rw [results_lookup] at hga_val hgb_val
    have hmva : model_value g prompts
        (metrics.getD ["latency", "cost", "quality"]) pa.1 = some pa.2 := by
      by_cases hc : pa.1 ∈ mids ∧ (model_value g prompts
          (metrics.getD ["latency", "cost", "quality"]) pa.1).isSome
      · rw [if_pos hc] at hga_val
        exact hga_val
      · rw [if_neg hc] at hga_val
        cases hga_val
    have hmvb : model_value g prompts
        (metrics.getD ["latency", "cost", "quality"]) pb.1 = some pb.2 := by
      by_cases hc : pb.1 ∈ mids ∧ (model_value g prompts
          (metrics.getD ["latency", "cost", "quality"]) pb.1).isSome
      · rw [if_pos hc] at hgb_val
        exact hgb_val
      · rw [if_neg hc] at hgb_val
        cases hgb_val
    have hMSsub : List.Sublist
        [(pa.1, pa.2.aggregated_metrics), (pb.1, pb.2.aggregated_metrics)]
        ((results_model g prompts (metrics.getD ["latency", "cost", "quality"]) mids).map
          (fun p => (p.1, p.2.aggregated_metrics))) := by
      have h := hl'sub.map (fun p : String × ModelResult => (p.1, p.2.aggregated_metrics))
      simpa using h
    have hres2 : ¬ (results_model g prompts
        (metrics.getD ["latency", "cost", "quality"]) mids).map
          (fun p => (p.1, p.2.aggregated_metrics)) = [] := by
      intro h0
      rw [h0] at hMSsub
      have := List.sublist_nil.mp hMSsub
      cases this
    refine ⟨rfl, ?_, ?_⟩
    · have hsa : stored_overall g prompts
          (metrics.getD ["latency", "cost", "quality"]) pa.1
          = pa.2.aggregated_metrics.overall_score.getD 0 := by
        rw [stored_overall, hmva]
        rfl
      have hsb : stored_overall g prompts
          (metrics.getD ["latency", "cost", "quality"]) pb.1
          = pb.2.aggregated_metrics.overall_score.getD 0 := by
        rw [stored_overall, hmvb]
        rfl
      have hkey : ((pb.1, pb.2.aggregated_metrics) :
            String × AggregatedMetrics).2.overall_score.getD 0
          ≤ ((pa.1, pa.2.aggregated_metrics) :
            String × AggregatedMetrics).2.overall_score.getD 0 := by
        rw [hsa, hsb] at htie
        exact htie
      have hsorted := pyDescSort_pair_sublist
        (fun p : String × AggregatedMetrics => p.2.overall_score.getD 0) hkey hMSsub
      have hentries := hsorted.map
        (fun p : String × AggregatedMetrics => RankEntry.mk p.1 (p.2.overall_score.getD 0))
      rw [run_benchmark_summary, run_benchmark_results,
        summary_overall_lookup _ _ hres2 hov, Option.getD_some]
      rw [hsa, hsb]
      exact hentries
    · intro hmm htie2
      have hsa2 : stored_metric_score g prompts
          (metrics.getD ["latency", "cost", "quality"]) metric pa.1
          = ((pyGet metric pa.2.aggregated_metrics.entries).map
              (fun e => e.average_score)).getD 0 := by
        rw [stored_metric_score, hmva]
        rfl
      have hsb2 : stored_metric_score g prompts
          (metrics.getD ["latency", "cost", "quality"]) metric pb.1
          = ((pyGet metric pb.2.aggregated_metrics.entries).map
              (fun e => e.average_score)).getD 0 := by
        rw [stored_metric_score, hmvb]
        rfl
      have hpairs_sub : List.Sublist
          [(pa.1, ((pyGet metric pa.2.aggregated_metrics.entries).map
              (fun e => e.average_score)).getD 0),
           (pb.1, ((pyGet metric pb.2.aggregated_metrics.entries).map
              (fun e => e.average_score)).getD 0)]
          (((results_model g prompts (metrics.getD ["latency", "cost", "quality"])
              mids).map (fun p => (p.1, p.2.aggregated_metrics))).map
            (fun p => (p.1, ((pyGet metric p.2.entries).map
              (fun e => e.average_score)).getD 0))) := by
        have h := hMSsub.map (fun p : String × AggregatedMetrics =>
          (p.1, ((pyGet metric p.2.entries).map (fun e => e.average_score)).getD 0))
        simpa using h
      have hkey2 : ((pb.1, ((pyGet metric pb.2.aggregated_metrics.entries).map
            (fun e => e.average_score)).getD 0) : String × ℚ).2
          ≤ ((pa.1, ((pyGet metric pa.2.aggregated_metrics.entries).map
            (fun e => e.average_score)).getD 0) : String × ℚ).2 := by
        rw [hsa2, hsb2] at htie2
        exact htie2
      have hsorted2 := pyDescSort_pair_sublist (fun q : String × ℚ => q.2) hkey2 hpairs_sub
      have hentries2 := hsorted2.map (fun q : String × ℚ => RankEntry.mk q.1 q.2)
      rw [run_benchmark_summary, run_benchmark_results,
        summary_rankings_lookup _ _ metric hres2 hmm, Option.getD_some]
      rw [hsa2, hsb2]
      exact hentries2
  case _ =>
    simp at hl'map

/-- Witness for C8: a two-model registry where both models resolve to the
same deterministic connector, so the overall and latency scores tie and
the input order `a` before `b` decides both ranking orders. -/
theorem C8_stable_tie_break_witness :
    run_benchmark
        (fun mid => if mid = "a" then some okConnector
          else if mid = "b" then some okConnector else none)
        ["p"] ["a", "b"] (some ["latency"])
      = run_benchmark
        (fun mid => if mid = "a" then some okConnector
          else if mid = "b" then some okConnector else none)
        ["p"] ["a", "b"] (some ["latency"]) ∧
    List.Sublist
      [RankEntry.mk "a"
        (stored_overall
          (fun mid => if mid = "a" then some okConnector
            else if mid = "b" then some okConnector else none)
          ["p"] ((some ["latency"]).getD ["latency", "cost", "quality"]) "a"),
       RankEntry.mk "b"
        (stored_overall
          (fun mid => if mid = "a" then some okConnector
            else if mid = "b" then some okConnector else none)
          ["p"] ((some ["latency"]).getD ["latency", "cost", "quality"]) "b")]
      ((pyGet "overall" (run_benchmark
        (fun mid => if mid = "a" then some okConnector
          else if mid = "b" then some okConnector else none)
        ["p"] ["a", "b"] (some ["latency"])).summary.rankings).getD []) ∧
    ("latency" ∈ (some ["latency"] : Option (List String)).getD
        ["latency", "cost", "quality"] →
      stored_metric_score
          (fun mid => if mid = "a" then some okConnector
            else if mid = "b" then some okConnector else none)
          ["p"] ((some ["latency"]).getD ["latency", "cost", "quality"]) "latency" "b"
        ≤ stored_metric_score
          (fun mid => if mid = "a" then some okConnector
            else if mid = "b" then some okConnector else none)
          ["p"] ((some ["latency"]).getD ["latency", "cost", "quality"]) "latency" "a" →
      List.Sublist
        [RankEntry.mk "a"
          (stored_metric_score
            (fun mid => if mid = "a" then some okConnector
              else if mid = "b" then some okConnector else none)
            ["p"] ((some ["latency"]).getD ["latency", "cost", "quality"]) "latency" "a"),
         RankEntry.mk "b"
          (stored_metric_score
            (fun mid => if mid = "a" then some okConnector
              else if mid = "b" then some okConnector else none)
            ["p"] ((some ["latency"]).getD ["latency", "cost", "quality"]) "latency" "b")]
        ((pyGet "latency" (run_benchmark
          (fun mid => if mid = "a" then some okConnector
            else if mid = "b" then some okConnector else none)
          ["p"] ["a", "b"] (some ["latency"])).summary.rankings).getD [])) :=
  C8_stable_tie_break
    (fun mid => if mid = "a" then some okConnector
      else if mid = "b" then some okConnector else none)
    ["p"] ["a", "b"] (some ["latency"]) "a" "b" "latency"
    (by simp) rfl rfl (by simp) (by simp) (by decide) (le_refl _) (by simp)
